import Mathlib

/-!
# Dropbear PAM password authentication (`svr-authpam.c`)

A shallow embedding of `pamConvFunc`, `svr_auth_pam` and `svr_auth_pam_cleanup`.

Modelling conventions

* A `char *` is modelled by the bytes of the memory region it points to, as a
  `List Nat`; the region is followed by a terminating NUL that is not part of
  the list.  The C string held there is `cstr p`, the bytes before the first
  NUL.  A password decoded by `buf_getstring` may contain NUL bytes, so the
  region can be longer than the C string.
* Lengths are natural numbers: strings are assumed shorter than `UINT_MAX`, so
  `unsigned int msg_len = strlen(..)` does not truncate, and allocations
  (`m_malloc`, `m_strdup`, `buf_new`) succeed.
* `tolower` is that of the "C" locale (Dropbear never calls `setlocale`).
* Everything the code does to the outside world (log lines, packets to the
  peer, calls into the PAM library, wipes) is recorded, in order, as a list of
  `Event`s.
* `TRACE((..))` is debug tracing, compiled out of normal builds; it is omitted.
-/

namespace Dropbear

/-! ## Constants of `<security/pam_appl.h>` (Linux-PAM) and `<syslog.h>` -/

def PAM_SUCCESS : Int := 0
def PAM_NEW_AUTHTOK_REQD : Int := 12
def PAM_CONV_ERR : Int := 19

def PAM_PROMPT_ECHO_OFF : Int := 1
def PAM_PROMPT_ECHO_ON : Int := 2
def PAM_ERROR_MSG : Int := 3
def PAM_TEXT_INFO : Int := 4

def PAM_TTY : Nat := 3
def PAM_RHOST : Nat := 4

def PAM_ESTABLISH_CRED : Nat := 2
def PAM_DELETE_CRED : Nat := 4
def PAM_CHANGE_EXPIRED_AUTHTOK : Nat := 32
def PAM_SILENT : Nat := 32768

def LOG_WARNING : Nat := 4
def LOG_NOTICE : Nat := 5
def LOG_INFO : Nat := 6

/-! ## C strings -/

/-- Bytes of a string literal of the source (all literals here are ASCII). -/
def lit (s : String) : List Nat := s.toList.map Char.toNat

/-- The C string stored at a `char *`: the bytes before the first NUL. -/
def cstr (p : List Nat) : List Nat := p.takeWhile (fun c => c != 0)

/-- The C function `strlen(p)`. -/
def strlen (p : List Nat) : Nat := (cstr p).length

/-- The function `m_strdup(p)`: a fresh region holding a copy of the C string at `p`. -/
def m_strdup (p : List Nat) : List Nat := cstr p

/-- The function `m_burn(p, len)`: overwrite the first `len` bytes of the region with zero. -/
def m_burn (p : List Nat) (len : Nat) : List Nat :=
  (p.take len).map (fun _ => 0) ++ p.drop len

/-- The C function `tolower(c)` in the "C" locale: `'A'..'Z'` map to `'a'..'z'`. -/
def tolower (c : Nat) : Nat := if 65 ≤ c ∧ c ≤ 90 then c + 32 else c

/-- Comparison of two NUL-free byte strings, as `strcmp` orders them. -/
def strcmpBytes : List Nat → List Nat → Int
  | [], [] => 0
  | [], _ :: _ => -1
  | _ :: _, [] => 1
  | a :: as, b :: bs => if a = b then strcmpBytes as bs else (a : Int) - (b : Int)

/-- The C function `strcmp(a, b)`: compares the C strings stored at `a` and `b`. -/
def strcmp (a b : List Nat) : Int := strcmpBytes (cstr a) (cstr b)

/-! ## Data of the conversation -/

/-- The C type `struct pam_message`. -/
structure pam_message where
  msg_style : Int
  msg : List Nat
  deriving DecidableEq, Repr

/-- The C type `struct pam_response`. -/
structure pam_response where
  resp : List Nat
  resp_retcode : Int
  deriving DecidableEq, Repr

/-- The C type `struct UserDataS`: the regions `user` and `passwd` point to. -/
structure UserDataS where
  user : List Nat
  passwd : List Nat
  deriving DecidableEq, Repr

/-- An argument of a `dropbear_log` format string. -/
inductive LogArg where
  | int (v : Int)
  | str (s : List Nat)
  | pam_strerror (rc : Int)
  deriving DecidableEq, Repr

/-- A call into the PAM library. -/
inductive PamOp where
  | pam_start
  | pam_set_item (item : Nat)
  | pam_fail_delay
  | pam_authenticate
  | pam_acct_mgmt
  | pam_chauthtok (flags : Nat)
  | pam_setcred (flags : Nat)
  | pam_open_session
  | pam_close_session (flags : Nat)
  | pam_end
  deriving DecidableEq, Repr

/-- What the code does to the outside world. -/
inductive Event where
  /-- the call `dropbear_log(priority, format, args..)` -/
  | dropbear_log (priority : Nat) (format : String) (args : List LogArg)
  /-- the call `send_msg_userauth_banner(buf)`, with the bytes of the buffer -/
  | send_msg_userauth_banner (bytes : List Nat)
  /-- the call `send_msg_userauth_failure(partial, incrfail)` -/
  | send_msg_userauth_failure (partialFlag : Int) (incrfail : Int)
  /-- the call `send_msg_userauth_success()` -/
  | send_msg_userauth_success
  /-- a PAM library call on handle `pamh` (for `pam_start`: the handle it stored) -/
  | pam (op : PamOp) (pamh : Nat)
  /-- the call `buf_getbool(ses.payload)` -/
  | buf_getbool
  /-- the call `buf_getstring(ses.payload, &passwordlen)` -/
  | buf_getstring
  /-- the call `m_burn(password region, len)` -/
  | m_burn (len : Nat)
  /-- the call `m_free(password)` -/
  | m_free
  deriving DecidableEq, Repr

/-! ## `pamConvFunc` -/

/-- Lines 71-86: the region `compare_message` when the `switch` is reached. -/
def compare_message (msg : List Nat) : List Nat :=
  -- make a copy we can strip
  let cm := m_strdup msg
  -- make the string lowercase
  let msg_len := strlen cm
  let cm := cm.map tolower
  -- if the string ends with ": ", remove the space
  if msg_len > 2 ∧ cm.getD (msg_len - 2) 0 = 58 ∧ cm.getD (msg_len - 1) 0 = 32 then
    cm.set (msg_len - 1) 0
  else
    cm

/-- The normalized prompt text: the C string held in `compare_message`. -/
def normalize (text : List Nat) : List Nat := cstr (compare_message text)

/-- Lines 149-156: the buffer `pam_err` handed to `send_msg_userauth_banner`
(`buf_new(msg_len + 4)`, then three `buf_putbytes` from position 0). -/
def pam_err (msg : List Nat) (msg_len : Nat) : List Nat :=
  (lit "\r\n").take 2 ++ msg.take msg_len ++ (lit "\r\n").take 2

/-- Result of one `pamConvFunc` call. -/
structure ConvResult where
  /-- the return value -/
  rc : Int
  /-- the value stored in `*respp`; `none` when `*respp` is not written -/
  respp : Option pam_response
  /-- the regions behind `appdata_ptr` after the call -/
  userData : UserDataS
  /-- log lines, banners and wipes, in order -/
  events : List Event
  deriving DecidableEq, Repr

/-- The function `pamConvFunc(num_msg, msg, respp, appdata_ptr)`; `msg` is the message
`*msg` points to, which the code reads only when `num_msg == 1`. -/
def pamConvFunc (num_msg : Int) (msg : pam_message) (userDatap : UserDataS) : ConvResult :=
  if num_msg ≠ 1 then
    { rc := PAM_CONV_ERR, respp := none, userData := userDatap,
      events := [.dropbear_log LOG_INFO
        "pamConvFunc() called with >1 messages: not supported." []] }
  else
    let cm := compare_message msg.msg
    let msg_len := strlen (m_strdup msg.msg)
    if msg.msg_style = PAM_PROMPT_ECHO_OFF then
      if ¬ (strcmp cm (lit "password:") = 0) then
        { rc := PAM_CONV_ERR, respp := none, userData := userDatap,
          events := [.dropbear_log LOG_NOTICE "PAM unknown prompt '%s' (no echo)"
            [.str (cstr cm)]] }
      else
        { rc := PAM_SUCCESS,
          respp := some { resp := m_strdup userDatap.passwd, resp_retcode := 0 },
          userData := { userDatap with
            passwd := m_burn userDatap.passwd (strlen userDatap.passwd) },
          events := [.m_burn (strlen userDatap.passwd)] }
    else if msg.msg_style = PAM_PROMPT_ECHO_ON then
      if ¬ (strcmp cm (lit "login:") = 0
            ∨ strcmp cm (lit "please enter username:") = 0
            ∨ strcmp cm (lit "username:") = 0) then
        { rc := PAM_CONV_ERR, respp := none, userData := userDatap,
          events := [.dropbear_log LOG_NOTICE "PAM unknown prompt '%s' (with echo)"
            [.str (cstr cm)]] }
      else
        { rc := PAM_SUCCESS,
          respp := some { resp := m_strdup userDatap.user, resp_retcode := 0 },
          userData := userDatap,
          events := [] }
    else if msg.msg_style = PAM_ERROR_MSG ∨ msg.msg_style = PAM_TEXT_INFO then
      if msg_len > 0 then
        { rc := PAM_SUCCESS, respp := none, userData := userDatap,
          events := [.send_msg_userauth_banner (pam_err msg.msg msg_len)] }
      else
        { rc := PAM_SUCCESS, respp := none, userData := userDatap, events := [] }
    else
      { rc := PAM_CONV_ERR, respp := none, userData := userDatap, events := [] }

/-! ## Session state and the PAM library -/

/-- Modelled from the spec: the decoded auth-request record held in
`ses.payload` ("a boolean wants-password-change and a password value");
the wire decoding (`buf_getbool`, `buf_getstring` of `buffer.c`) is not part of
this file.  `password` is the byte string of length `passwordlen`. -/
structure AuthRequest where
  changepw : Bool
  password : List Nat
  deriving DecidableEq, Repr

/-- One invocation of the conversation callback by a PAM module. -/
structure ConvCall where
  num_msg : Int
  msg : pam_message
  deriving DecidableEq, Repr

/-- What the PAM library (a black box) does on one call. -/
structure Answer where
  /-- the result code it returns -/
  rc : Int
  /-- the handle `pam_start` stores through `&ses.authstate.pam` (0 is NULL) -/
  pamh : Nat
  /-- the conversation invocations its modules make during the call -/
  conv : List ConvCall
  deriving DecidableEq, Repr

/-- The state the three functions work on. -/
structure World where
  /-- the handle `ses.authstate.pam` (0 is NULL) -/
  pam : Nat
  /-- the flag `ses.authstate.pam_credset` -/
  pam_credset : Bool
  /-- the flag `ses.authstate.pam_sesopen` -/
  pam_sesopen : Bool
  /-- the region of `ses.authstate.username` -/
  username : List Nat
  /-- the region of `svr_ses.remotehost` -/
  remotehost : List Nat
  /-- the region of `svr_ses.addrstring` -/
  addrstring : List Nat
  /-- the request in `ses.payload` -/
  req : AuthRequest
  /-- whether the build defines `HAVE_PAM_FAIL_DELAY` -/
  have_pam_fail_delay : Bool
  /-- local `password` of `svr_auth_pam`: `none` is NULL, else the region -/
  password : Option (List Nat)
  /-- local `passwordlen` of `svr_auth_pam` -/
  passwordlen : Nat
  /-- the PAM library: its answer to the n-th call made to it -/
  pamlib : Nat → Answer
  /-- number of PAM library calls made so far -/
  ncalls : Nat
  /-- everything done to the outside world so far, oldest first -/
  events : List Event

/-- Record an event. -/
def World.emit (w : World) (e : Event) : World :=
  { w with events := w.events ++ [e] }

/-- A PAM library call on `ses.authstate.pam` during which no conversation is
modelled (`pam_set_item`, `pam_fail_delay`, and the calls of
`svr_auth_pam_cleanup`): returns the result code. -/
def pamCall (op : PamOp) (w : World) : Int × World :=
  ((w.pamlib w.ncalls).rc,
   { w with ncalls := w.ncalls + 1, events := w.events ++ [.pam op w.pam] })

/-- The modules invoke the conversation callback registered by `pam_start`:
`pamConvFunc` with `appdata_ptr = &userData`, where `userData.user` is
`ses.authstate.username` and `userData.passwd` is `password` (lines 208-209). -/
def converse : List ConvCall → World → World
  | [], w => w
  | c :: cs, w =>
    let r := pamConvFunc c.num_msg c.msg
      { user := w.username, passwd := w.password.getD [] }
    converse cs { w with
      password := w.password.map (fun _ => r.userData.passwd),
      events := w.events ++ r.events }

/-- A PAM library call of the verification pipeline, during which modules may
converse (`pam_authenticate`, `pam_acct_mgmt`, `pam_chauthtok`, `pam_setcred`,
`pam_open_session`): returns the result code.  When such a call is made
`password` is not NULL (it is set at line 203, before `pam_start`). -/
def pamModuleCall (op : PamOp) (w : World) : Int × World :=
  ((w.pamlib w.ncalls).rc,
   converse (w.pamlib w.ncalls).conv
    { w with ncalls := w.ncalls + 1, events := w.events ++ [.pam op w.pam] })

/-- The warning `"<what> failed, rc=%d, %s"` with `rc` and `pam_strerror(.., rc)`. -/
def logFailed (format : String) (rc : Int) (w : World) : World :=
  w.emit (.dropbear_log LOG_WARNING format [.int rc, .pam_strerror rc])

/-- The warning of lines 241-244 and 254-257. -/
def logBadAttempt (w : World) : World :=
  w.emit (.dropbear_log LOG_WARNING "Bad PAM password attempt for '%s' from %s"
    [.str (cstr w.username), .str (cstr w.addrstring)])

/-! ## `svr_auth_pam` and `svr_auth_pam_cleanup` as a step machine -/

/-- Program points, named by source line: `a..` in `svr_auth_pam`,
`c..` in `svr_auth_pam_cleanup`. -/
inductive Pc where
  | a183 | a196 | a203 | a212 | a218 | a225 | a233 | a238 | a249 | a263 | a269
  | a272 | a276 | a282 | a284 | a288 | a291 | a295
  | c300 | c301 | c306 | c308 | c313 | c317 | c319
  | halt
  deriving DecidableEq, Repr

/-- A machine configuration: program point, return addresses, state. -/
structure Config where
  pc : Pc
  stack : List Pc
  w : World

/-- Return from a function: continue at the caller, or stop. -/
def ret (stack : List Pc) (w : World) : Config :=
  match stack with
  | r :: rest => ⟨r, rest, w⟩
  | [] => ⟨.halt, [], w⟩

/-- Execute the statement at the current program point. -/
def step (c : Config) : Config :=
  let w := c.w
  match c.pc with
  -- struct UserDataS userData = {NULL, NULL}; unsigned char * password = NULL;
  | .a183 => ⟨.a196, c.stack, { w with password := none }⟩
  -- changepw = buf_getbool(ses.payload); if (changepw) ..
  | .a196 =>
    let w := w.emit .buf_getbool
    if w.req.changepw then
      -- not implemented by this server
      ⟨.a288, c.stack, w.emit (.send_msg_userauth_failure 0 1)⟩
    else ⟨.a203, c.stack, w⟩
  -- password = buf_getstring(ses.payload, &passwordlen); userData.. = ..
  | .a203 =>
    ⟨.a212, c.stack, { w.emit .buf_getstring with
      password := some w.req.password, passwordlen := w.req.password.length }⟩
  -- if ((rc = pam_start("sshd", username, &pamConv, &ses.authstate.pam)) != PAM_SUCCESS)
  | .a212 =>
    let a := w.pamlib w.ncalls
    let w := { w with pam := a.pamh, ncalls := w.ncalls + 1,
                      events := w.events ++ [.pam .pam_start a.pamh] }
    if a.rc ≠ PAM_SUCCESS then
      ⟨.a288, c.stack, logFailed "pam_start() failed, rc=%d, %s" a.rc w⟩
    else ⟨.a218, c.stack, w⟩
  -- if ((rc = pam_set_item(ses.authstate.pam, PAM_RHOST, ..)) != PAM_SUCCESS)
  | .a218 =>
    let r := pamCall (.pam_set_item PAM_RHOST) w
    if r.1 ≠ PAM_SUCCESS then
      ⟨.a288, c.stack, logFailed "pam_set_item(PAM_RHOST) failed, rc=%d, %s" r.1 r.2⟩
    else ⟨.a225, c.stack, r.2⟩
  -- if ((rc = pam_set_item(ses.authstate.pam, PAM_TTY, "ssh") != PAM_SUCCESS))
  | .a225 =>
    let r := pamCall (.pam_set_item PAM_TTY) w
    let rc : Int := if r.1 ≠ PAM_SUCCESS then 1 else 0
    if rc ≠ 0 then
      ⟨.a288, c.stack, logFailed "pam_set_item() failed, rc=%d, %s" rc r.2⟩
    else ⟨.a233, c.stack, r.2⟩
  -- #ifdef HAVE_PAM_FAIL_DELAY: (void) pam_fail_delay(ses.authstate.pam, 0)
  | .a233 =>
    if w.have_pam_fail_delay then ⟨.a238, c.stack, (pamCall .pam_fail_delay w).2⟩
    else ⟨.a238, c.stack, w⟩
  -- if ((rc = pam_authenticate(ses.authstate.pam, 0)) != PAM_SUCCESS)
  | .a238 =>
    let r := pamModuleCall .pam_authenticate w
    if r.1 ≠ PAM_SUCCESS then
      ⟨.a288, c.stack,
        (logBadAttempt (logFailed "pam_authenticate() failed, rc=%d, %s" r.1 r.2)).emit
          (.send_msg_userauth_failure 0 1)⟩
    else ⟨.a249, c.stack, r.2⟩
  -- if ((rc = pam_acct_mgmt(..)) == PAM_NEW_AUTHTOK_REQD) rc = pam_chauthtok(..);
  -- if (rc != PAM_SUCCESS)
  | .a249 =>
    let r := pamModuleCall .pam_acct_mgmt w
    let r := if r.1 = PAM_NEW_AUTHTOK_REQD then
        pamModuleCall (.pam_chauthtok PAM_CHANGE_EXPIRED_AUTHTOK) r.2
      else r
    if r.1 ≠ PAM_SUCCESS then
      ⟨.a288, c.stack,
        (logBadAttempt (logFailed "pam_acct_mgmt() failed, rc=%d, %s" r.1 r.2)).emit
          (.send_msg_userauth_failure 0 1)⟩
    else ⟨.a263, c.stack, r.2⟩
  -- if ((rc = pam_setcred(ses.authstate.pam, PAM_ESTABLISH_CRED)) != PAM_SUCCESS)
  | .a263 =>
    let r := pamModuleCall (.pam_setcred PAM_ESTABLISH_CRED) w
    if r.1 ≠ PAM_SUCCESS then
      ⟨.a288, c.stack,
        (logFailed "pam_setcred() failed, rc=%d, %s" r.1 r.2).emit
          (.send_msg_userauth_failure 0 1)⟩
    else ⟨.a269, c.stack, r.2⟩
  -- ses.authstate.pam_credset = 1
  | .a269 => ⟨.a272, c.stack, { w with pam_credset := true }⟩
  -- successful authentication
  | .a272 =>
    ⟨.a276, c.stack,
      w.emit (.dropbear_log LOG_NOTICE "PAM password auth succeeded for '%s' from %s"
        [.str (cstr w.username), .str (cstr w.addrstring)])⟩
  -- if ((rc = pam_open_session(ses.authstate.pam, 0)) != PAM_SUCCESS)
  | .a276 =>
    let r := pamModuleCall .pam_open_session w
    if r.1 ≠ PAM_SUCCESS then
      ⟨.a288, c.stack,
        (logFailed "pam_open_session() failed, rc=%d, %s" r.1 r.2).emit
          (.send_msg_userauth_failure 0 1)⟩
    else ⟨.a282, c.stack, r.2⟩
  -- ses.authstate.pam_sesopen = 1
  | .a282 => ⟨.a284, c.stack, { w with pam_sesopen := true }⟩
  -- send_msg_userauth_success(); goto success
  | .a284 => ⟨.a291, c.stack, w.emit .send_msg_userauth_success⟩
  -- cleanup: svr_auth_pam_cleanup()
  | .a288 => ⟨.c300, .a291 :: c.stack, w⟩
  -- success: if (password != NULL) { m_burn(password, passwordlen); m_free(password); }
  | .a291 =>
    match w.password with
    | some p =>
      ⟨.a295, c.stack, { (w.emit (.m_burn w.passwordlen)).emit .m_free with
        password := some (m_burn p w.passwordlen) }⟩
    | none => ⟨.a295, c.stack, w⟩
  -- end of svr_auth_pam
  | .a295 => ret c.stack w
  -- if (ses.authstate.pam != NULL)
  | .c300 => if w.pam ≠ 0 then ⟨.c301, c.stack, w⟩ else ⟨.c319, c.stack, w⟩
  -- if (ses.authstate.pam_sesopen) { if ((rc = pam_close_session(..)) != PAM_SUCCESS) ..
  | .c301 =>
    if w.pam_sesopen then
      let r := pamCall (.pam_close_session PAM_SILENT) w
      if r.1 ≠ PAM_SUCCESS then
        ⟨.c306, c.stack, logFailed "pam_close_session() failed, rc=%d, %s" r.1 r.2⟩
      else ⟨.c306, c.stack, r.2⟩
    else ⟨.c308, c.stack, w⟩
  -- ses.authstate.pam_sesopen = 0
  | .c306 => ⟨.c308, c.stack, { w with pam_sesopen := false }⟩
  -- if (ses.authstate.pam_credset) { if ((rc = pam_setcred(.., PAM_DELETE_CRED)) != ..
  | .c308 =>
    if w.pam_credset then
      let r := pamCall (.pam_setcred PAM_DELETE_CRED) w
      if r.1 ≠ PAM_SUCCESS then
        ⟨.c313, c.stack, logFailed "pam_setcred() failed, rc=%d, %s" r.1 r.2⟩
      else ⟨.c313, c.stack, r.2⟩
    else ⟨.c317, c.stack, w⟩
  -- ses.authstate.pam_credset = 0
  | .c313 => ⟨.c317, c.stack, { w with pam_credset := false }⟩
  -- (void) pam_end(ses.authstate.pam, 0)
  | .c317 => ⟨.c319, c.stack, (pamCall .pam_end w).2⟩
  -- end of svr_auth_pam_cleanup
  | .c319 => ret c.stack w
  | .halt => c

/-- The configuration after `n` steps. -/
def run : Nat → Config → Config
  | 0, c => c
  | n + 1, c => run n (step c)

/-- Steps that suffice for `svr_auth_pam` to return (the longest path has 23). -/
def authFuel : Nat := 24

/-- Steps that suffice for `svr_auth_pam_cleanup` to return (at most 8). -/
def cleanupFuel : Nat := 8

/-- The function `svr_auth_pam()`: the state on return. -/
def svr_auth_pam (w : World) : World := (run authFuel ⟨.a183, [], w⟩).w

/-- The function `svr_auth_pam_cleanup()`: the state on return. -/
def svr_auth_pam_cleanup (w : World) : World := (run cleanupFuel ⟨.c300, [], w⟩).w

/-- The events a function added to the trace: those of `w1` after those of `w0`. -/
def newEvents (w0 w1 : World) : List Event := w1.events.drop w0.events.length

/-- A state before any authentication attempt, with a PAM library that
answers every call with `a`. -/
def World.fresh (req : AuthRequest) (username : List Nat) (a : Answer) : World :=
  { pam := 0, pam_credset := false, pam_sesopen := false,
    username := username, remotehost := lit "host.example", addrstring := lit "192.0.2.1:4022",
    req := req, have_pam_fail_delay := true, password := none, passwordlen := 0,
    pamlib := fun _ => a, ncalls := 0, events := [] }

/-! ## Vocabulary of the statements -/

/-- The PAM library calls among a list of events, in order. -/
def pamOps : List Event → List PamOp
  | [] => []
  | .pam op _ :: es => op :: pamOps es
  | _ :: es => pamOps es

/-- A "close session" operation. -/
def isCloseSession : PamOp → Bool
  | .pam_close_session _ => true
  | _ => false

/-- A "delete credentials" operation. -/
def isDeleteCred (op : PamOp) : Bool := op == .pam_setcred PAM_DELETE_CRED

/-- An upper bound on the steps from a program point to the return of its
function (for `a288` this includes the call of `svr_auth_pam_cleanup`). -/
def Pc.dist : Pc → Nat
  | .halt => 0
  | .c319 => 1 | .c317 => 2 | .c313 => 3 | .c308 => 4 | .c306 => 5 | .c301 => 6 | .c300 => 7
  | .a295 => 1 | .a291 => 2 | .a284 => 3 | .a282 => 4 | .a288 => 11 | .a276 => 12
  | .a272 => 13 | .a269 => 14 | .a263 => 15 | .a249 => 16 | .a238 => 17 | .a233 => 18
  | .a225 => 19 | .a218 => 20 | .a212 => 21 | .a203 => 22 | .a196 => 23 | .a183 => 24

/-- An upper bound on the steps a configuration still takes before it halts. -/
def Config.weight (c : Config) : Nat :=
  c.pc.dist + (c.stack.map (fun r => r.dist + 1)).sum

/-- The session is not open while credentials are not established. -/
def flagsOk (w : World) : Prop := w.pam_sesopen = true → w.pam_credset = true

/-- Invariant of the step machine: `flagsOk`, with what the next flag
assignment needs at the program points that lead to it. -/
def machineInv (c : Config) : Prop :=
  flagsOk c.w
  ∧ (c.pc = .a272 ∨ c.pc = .a276 ∨ c.pc = .a282 → c.w.pam_credset = true)
  ∧ (c.pc = .c308 ∨ c.pc = .c313 → c.w.pam_sesopen = false)
  ∧ (∀ r ∈ c.stack, r = Pc.a291)

/-- The state in which the machine halts when started in configuration `c`. -/
def Config.final (c : Config) : World := (run c.weight c).w

/-- The region `passwd` points to after the conversation calls `cs`, made
with user name region `u` and password region `p`. -/
def convPasswd : List ConvCall → List Nat → List Nat → List Nat
  | [], _, p => p
  | c :: cs, u, p =>
    convPasswd cs u (pamConvFunc c.num_msg c.msg { user := u, passwd := p }).userData.passwd

/-- The events of the conversation calls `cs`, made with user name region `u`
and password region `p`. -/
def convTrace : List ConvCall → List Nat → List Nat → List Event
  | [], _, _ => []
  | c :: cs, u, p =>
    (pamConvFunc c.num_msg c.msg { user := u, passwd := p }).events
      ++ convTrace cs u (pamConvFunc c.num_msg c.msg { user := u, passwd := p }).userData.passwd

/-- Result code of the `k`-th PAM library call made from state `w` on. -/
def rcAt (w : World) (k : Nat) : Int := (w.pamlib (w.ncalls + k)).rc

/-- The handle stored by the `k`-th PAM library call made from state `w` on. -/
def pamhAt (w : World) (k : Nat) : Nat := (w.pamlib (w.ncalls + k)).pamh

/-- The conversation calls of the `k`-th PAM library call made from state `w` on. -/
def convAt (w : World) (k : Nat) : List ConvCall := (w.pamlib (w.ncalls + k)).conv

/-- The events of one call of `svr_auth_pam_cleanup` on handle `h` with flags
`ses` and `cred`, when the next PAM library calls return `r0` and `r1`. -/
def cleanupEvents (h : Nat) (ses cred : Bool) (r0 r1 : Int) : List Event :=
  if h = 0 then []
  else
    (if ses then
        Event.pam (.pam_close_session PAM_SILENT) h ::
          (if r0 ≠ PAM_SUCCESS then
            [Event.dropbear_log LOG_WARNING "pam_close_session() failed, rc=%d, %s"
              [.int r0, .pam_strerror r0]]
           else [])
      else [])
    ++ (if cred then
        Event.pam (.pam_setcred PAM_DELETE_CRED) h ::
          (if (if ses then r1 else r0) ≠ PAM_SUCCESS then
            [Event.dropbear_log LOG_WARNING "pam_setcred() failed, rc=%d, %s"
              [.int (if ses then r1 else r0), .pam_strerror (if ses then r1 else r0)]]
           else [])
      else [])
    ++ [Event.pam .pam_end h]

/-- The number of PAM library calls of one call of `svr_auth_pam_cleanup`. -/
def cleanupCalls (h : Nat) (ses cred : Bool) : Nat :=
  if h = 0 then 0 else (if ses then 1 else 0) + (if cred then 1 else 0) + 1

/-- The state `w` with the fields a run changes set to the given values:
handle `h`, flags `cred` and `ses`, locals `pw` and `len`, `k` more PAM
library calls made, and the events `tr` added to the trace. -/
def World.upd (w : World) (h : Nat) (cred ses : Bool) (pw : Option (List Nat)) (len : Nat)
    (k : Nat) (tr : List Event) : World :=
  { w with pam := h, pam_credset := cred, pam_sesopen := ses, password := pw,
           passwordlen := len, ncalls := w.ncalls + k, events := w.events ++ tr }

/-- The responses sent to the peer among a list of events, in order. -/
def peerMsgs : List Event → List Event
  | [] => []
  | .send_msg_userauth_failure p i :: es => .send_msg_userauth_failure p i :: peerMsgs es
  | .send_msg_userauth_success :: es => .send_msg_userauth_success :: peerMsgs es
  | _ :: es => peerMsgs es

/-- The log entries among a list of events, in order. -/
def logsOf : List Event → List Event
  | [] => []
  | .dropbear_log l f a :: es => .dropbear_log l f a :: logsOf es
  | _ :: es => logsOf es

/-- The wipes (`m_burn`) and releases (`m_free`) among a list of events, in order. -/
def wipes : List Event → List Event
  | [] => []
  | .m_burn n :: es => .m_burn n :: wipes es
  | .m_free :: es => .m_free :: wipes es
  | _ :: es => wipes es

/-- The audit-success line of line 272 for state `w`. -/
def successLog (w : World) : Event :=
  .dropbear_log LOG_NOTICE "PAM password auth succeeded for '%s' from %s"
    [.str (cstr w.username), .str (cstr w.addrstring)]

/-- The failed-attempt audit line of lines 241-244 and 254-257 for state `w`. -/
def badAttemptLog (w : World) : Event :=
  .dropbear_log LOG_WARNING "Bad PAM password attempt for '%s' from %s"
    [.str (cstr w.username), .str (cstr w.addrstring)]

/-- Position, among the PAM library calls of a run of `svr_auth_pam`, of
`pam_authenticate`: after `pam_start`, the two `pam_set_item`, and
`pam_fail_delay` when it is compiled in. -/
def authAt (w : World) : Nat := if w.have_pam_fail_delay then 4 else 3

/-- Whether the account check reports "new credential required". -/
def newTokReqd (w : World) : Bool := rcAt w (authAt w + 1) == PAM_NEW_AUTHTOK_REQD

/-- The value of `rc` after lines 249-250: the result of `pam_acct_mgmt`, or
that of `pam_chauthtok` when the former is `PAM_NEW_AUTHTOK_REQD`. -/
def acctRc (w : World) : Int :=
  if newTokReqd w then rcAt w (authAt w + 2) else rcAt w (authAt w + 1)

/-- Position of `pam_setcred(.., PAM_ESTABLISH_CRED)` among the PAM library
calls of a run. -/
def credAt (w : World) : Nat := if newTokReqd w then authAt w + 3 else authAt w + 2

/-- The stages of the spec at which an attempt can fail. -/
inductive Stage where
  | Unimplemented | Setup | Authenticate | AccountMgmt | SetCred | OpenSession
  deriving DecidableEq, Repr

/-- The outcome of an attempt, in the vocabulary of the spec. -/
inductive Outcome where
  | Success
  | Failed (stage : Stage)
  deriving DecidableEq, Repr

/-- The outcome of the run of `svr_auth_pam` started in `w`, as the request
and the result codes of the PAM library determine it: the stage of the first
call that reports failure, or `Success` when none does. -/
def outcome (w : World) : Outcome :=
  if w.req.changepw then .Failed .Unimplemented
  else if rcAt w 0 ≠ PAM_SUCCESS ∨ rcAt w 1 ≠ PAM_SUCCESS ∨ rcAt w 2 ≠ PAM_SUCCESS then
    .Failed .Setup
  else if rcAt w (authAt w) ≠ PAM_SUCCESS then .Failed .Authenticate
  else if acctRc w ≠ PAM_SUCCESS then .Failed .AccountMgmt
  else if rcAt w (credAt w) ≠ PAM_SUCCESS then .Failed .SetCred
  else if rcAt w (credAt w + 1) ≠ PAM_SUCCESS then .Failed .OpenSession
  else .Success

/-- The PAM library calls of a run in which every stage succeeds, in order;
the `k`-th of them is the `k`-th call made to the library. -/
def pipelineOps (w : World) : List PamOp :=
  [.pam_start, .pam_set_item PAM_RHOST, .pam_set_item PAM_TTY]
  ++ (if w.have_pam_fail_delay then [.pam_fail_delay] else [])
  ++ [.pam_authenticate, .pam_acct_mgmt]
  ++ (if newTokReqd w then [.pam_chauthtok PAM_CHANGE_EXPIRED_AUTHTOK] else [])
  ++ [.pam_setcred PAM_ESTABLISH_CRED, .pam_open_session]

/-- Position, among the PAM library calls of a run, of the first call whose
result makes the attempt fail (of the last call when none does). -/
def failPos (w : World) : Nat :=
  if rcAt w 0 ≠ PAM_SUCCESS then 0
  else if rcAt w 1 ≠ PAM_SUCCESS then 1
  else if rcAt w 2 ≠ PAM_SUCCESS then 2
  else if rcAt w (authAt w) ≠ PAM_SUCCESS then authAt w
  else if acctRc w ≠ PAM_SUCCESS then credAt w - 1
  else if rcAt w (credAt w) ≠ PAM_SUCCESS then credAt w
  else credAt w + 1

/-- An attempt of user "alice" with password "secret123" in a fresh session:
the PAM library stores handle `h`, its modules ask "Password: " (one prompt,
no echo) during `pam_authenticate` (the fifth call, number 4, `pam_fail_delay`
being compiled in), and call number `n` returns `rcs n`. -/
def World.scenario (rcs : Nat → Int) (h : Nat) : World :=
  { pam := 0, pam_credset := false, pam_sesopen := false,
    username := lit "alice", remotehost := lit "host.example",
    addrstring := lit "192.0.2.1:4022",
    req := { changepw := false, password := lit "secret123" },
    have_pam_fail_delay := true, password := none, passwordlen := 0,
    pamlib := fun n =>
      { rc := rcs n, pamh := h,
        conv := if n = 4 then [⟨1, ⟨PAM_PROMPT_ECHO_OFF, lit "Password: "⟩⟩] else [] },
    ncalls := 0, events := [] }

/-- Scenario B of the spec: every call succeeds. -/
def scenarioB : World := World.scenario (fun _ => PAM_SUCCESS) 7

/-- Scenario C of the spec: `pam_authenticate` fails with `PAM_AUTH_ERR` (7). -/
def scenarioC : World := World.scenario (fun n => if n = 4 then 7 else PAM_SUCCESS) 7

/-- Scenario D of the spec: the account check reports `PAM_NEW_AUTHTOK_REQD`
and `pam_chauthtok` fails with `PAM_AUTHTOK_ERR` (20). -/
def scenarioD : World :=
  World.scenario (fun n => if n = 5 then PAM_NEW_AUTHTOK_REQD else if n = 6 then 20
    else PAM_SUCCESS) 7

/-- A run in which `pam_open_session` (call number 7) fails with
`PAM_SESSION_ERR` (14). -/
def scenarioOpenFails : World :=
  World.scenario (fun n => if n = 7 then 14 else PAM_SUCCESS) 7

/-- The state `w` with another password in the auth request: same username,
peer, prompts and module result codes. -/
def World.withPassword (w : World) (pw : List Nat) : World :=
  { w with req := { w.req with password := pw } }

/-- The log lines of the conversation calls `cs` for username `u`. -/
def convLogs (cs : List ConvCall) (u : List Nat) : List Event :=
  logsOf (convTrace cs u [])

/-! ## C strings: lemmas -/

theorem strcmpBytes_eq_zero (a b : List Nat) : strcmpBytes a b = 0 ↔ a = b := by
  induction a generalizing b with
  | nil => cases b <;> simp [strcmpBytes]
  | cons x xs ih =>
    cases b with
    | nil => simp [strcmpBytes]
    | cons y ys =>
      by_cases h : x = y
      · simp [strcmpBytes, h, ih]
      · have : (x : Int) - (y : Int) ≠ 0 := by omega
        simp [strcmpBytes, h, this]

theorem cstr_idem (p : List Nat) : cstr (cstr p) = cstr p := by
  induction p with
  | nil => rfl
  | cons a t ih =>
    by_cases h : a = 0
    · simp [cstr, h]
    · have ih2 : List.takeWhile (fun c => c != 0) (List.takeWhile (fun c => c != 0) t)
          = List.takeWhile (fun c => c != 0) t := ih
      simp [cstr, List.takeWhile_cons, h, ih2]

theorem strcmp_eq_zero (a b : List Nat) : strcmp a b = 0 ↔ cstr a = cstr b := by
  simp [strcmp, strcmpBytes_eq_zero]

theorem cstr_nonzero {p : List Nat} {c : Nat} (h : c ∈ cstr p) : c ≠ 0 := by
  have := List.mem_takeWhile_imp h
  simpa using this

theorem cstr_of_nonzero {l : List Nat} (h : ∀ c ∈ l, c ≠ 0) : cstr l = l := by
  unfold cstr
  rw [List.takeWhile_eq_self_iff]
  intro x hx
  simpa using h x hx

/-- A region without NUL byte is copied whole by `m_strdup`. -/
theorem m_strdup_of_nonzero {p : List Nat} (h : ∀ c ∈ p, c ≠ 0) : m_strdup p = p :=
  cstr_of_nonzero h

theorem take_strlen (p : List Nat) : p.take (strlen p) = cstr p := by
  induction p with
  | nil => rfl
  | cons a t ih =>
    by_cases h : a = 0
    · simp [strlen, cstr, h]
    · have ih2 : List.take (List.takeWhile (fun c => c != 0) t).length t
          = List.takeWhile (fun c => c != 0) t := ih
      simp [strlen, cstr, List.takeWhile_cons, h, ih2]

theorem tolower_ne_zero {c : Nat} (h : c ≠ 0) : tolower c ≠ 0 := by
  unfold tolower
  split <;> omega

theorem tolower_idem (c : Nat) : tolower (tolower c) = tolower c := by
  unfold tolower
  split
  · split <;> omega
  · rfl

theorem map_tolower_idem (l : List Nat) :
    (l.map tolower).map tolower = l.map tolower := by
  simp [List.map_map, Function.comp_def, tolower_idem]

theorem cstr_set_last (l : List Nat) (h : ∀ c ∈ l, c ≠ 0) (hne : l ≠ []) :
    cstr (l.set (l.length - 1) 0) = l.dropLast := by
  have hlen : l.length - 1 < l.length := by
    cases l with
    | nil => exact absurd rfl hne
    | cons a t => simp
  rw [List.set_eq_take_append_cons_drop, if_pos hlen, List.dropLast_eq_take]
  unfold cstr
  rw [List.takeWhile_append_of_pos]
  · simp
  · intro a ha
    have := h a (List.mem_of_mem_take ha)
    simpa using this

/-- The lowercased copy of the prompt text (after the loop of lines 76-78). -/
theorem lowered_nonzero (text : List Nat) : ∀ c ∈ (cstr text).map tolower, c ≠ 0 := by
  intro c hc
  rw [List.mem_map] at hc
  obtain ⟨b, hb, rfl⟩ := hc
  exact tolower_ne_zero (cstr_nonzero hb)

/-- Closed form of the normalization: lowercase the C string, then drop the
last byte when the text is longer than 2 and ends with ": ". -/
theorem normalize_eq (text : List Nat) :
    normalize text =
      if 2 < ((cstr text).map tolower).length
          ∧ ((cstr text).map tolower).getD (((cstr text).map tolower).length - 2) 0 = 58
          ∧ ((cstr text).map tolower).getD (((cstr text).map tolower).length - 1) 0 = 32
      then ((cstr text).map tolower).dropLast
      else (cstr text).map tolower := by
  have hnz := lowered_nonzero text
  have hlen : strlen (cstr text) = ((cstr text).map tolower).length := by
    simp [strlen, cstr_idem]
  unfold normalize compare_message
  simp only [hlen, m_strdup, gt_iff_lt]
  by_cases hc : 2 < ((cstr text).map tolower).length
          ∧ ((cstr text).map tolower).getD (((cstr text).map tolower).length - 2) 0 = 58
          ∧ ((cstr text).map tolower).getD (((cstr text).map tolower).length - 1) 0 = 32
  · rw [if_pos hc, if_pos hc]
    apply cstr_set_last _ hnz
    intro h0
    rw [h0] at hc
    simp at hc
  · rw [if_neg hc, if_neg hc]
    exact cstr_of_nonzero hnz

theorem normalize_nonzero (text : List Nat) : ∀ c ∈ normalize text, c ≠ 0 := by
  intro c hc
  exact cstr_nonzero hc

theorem normalize_lower (text : List Nat) :
    (normalize text).map tolower = normalize text := by
  rw [normalize_eq]
  split
  · rw [List.dropLast_eq_take, List.map_take, map_tolower_idem]
  · exact map_tolower_idem _

theorem getD_dropLast (l : List Nat) (i : Nat) (h : i < l.length - 1) :
    l.dropLast.getD i 0 = l.getD i 0 := by
  rw [List.getD_eq_getElem?_getD, List.getD_eq_getElem?_getD, List.dropLast_eq_take,
    List.getElem?_take_of_lt h]

/-- After normalization the text no longer ends with ": " (when longer than 2),
so a second pass strips nothing. -/
theorem normalize_no_strip (text : List Nat) :
    ¬ (2 < (normalize text).length
        ∧ (normalize text).getD ((normalize text).length - 2) 0 = 58
        ∧ (normalize text).getD ((normalize text).length - 1) 0 = 32) := by
  intro ⟨h2, h58, h32⟩
  rw [normalize_eq] at h2 h58 h32
  by_cases hc : 2 < ((cstr text).map tolower).length
          ∧ ((cstr text).map tolower).getD (((cstr text).map tolower).length - 2) 0 = 58
          ∧ ((cstr text).map tolower).getD (((cstr text).map tolower).length - 1) 0 = 32
  · rw [if_pos hc] at h2 h58 h32
    obtain ⟨c2, c58, _⟩ := hc
    rw [List.length_dropLast] at h32
    rw [getD_dropLast _ _ (by omega)] at h32
    have e : ((cstr text).map tolower).length - 1 - 1
        = ((cstr text).map tolower).length - 2 := by omega
    rw [e, c58] at h32
    omega
  · rw [if_neg hc] at h2 h58 h32
    exact hc ⟨h2, h58, h32⟩

theorem strcmp_lit_iff (text lit0 : List Nat) (h : ∀ c ∈ lit0, c ≠ 0) :
    strcmp (compare_message text) lit0 = 0 ↔ normalize text = lit0 := by
  rw [strcmp_eq_zero, cstr_of_nonzero h]
  rfl

theorem pam_err_eq (text : List Nat) :
    pam_err text (strlen (m_strdup text)) = lit "\r\n" ++ cstr text ++ lit "\r\n" := by
  have h : strlen (m_strdup text) = strlen text := by simp [strlen, m_strdup, cstr_idem]
  rw [h]
  unfold pam_err
  rw [take_strlen]
  rfl

/-! ## The conversation function: claims C1 to C6 -/

/-- C1: when the prompt count is not exactly 1 (0, 2 or more, negative),
`pamConvFunc` returns `PAM_CONV_ERR`, stores no response, sends no banner, and
leaves the credential context (user name and password bytes) unchanged. -/
theorem pamConvFunc_rejects_batch (num_msg : Int) (msg : pam_message) (ud : UserDataS)
    (h : num_msg ≠ 1) :
    (pamConvFunc num_msg msg ud).rc = PAM_CONV_ERR
    ∧ (pamConvFunc num_msg msg ud).respp = none
    ∧ (∀ b, Event.send_msg_userauth_banner b ∉ (pamConvFunc num_msg msg ud).events)
    ∧ (pamConvFunc num_msg msg ud).userData = ud := by
  simp [pamConvFunc, h]

/-- Witness for C1: batches of 2, 0 and -1 prompts. -/
theorem pamConvFunc_rejects_batch_witness :
    ((2 : Int) ≠ 1 ∧ (0 : Int) ≠ 1 ∧ (-1 : Int) ≠ 1)
    ∧ ((pamConvFunc 2 ⟨PAM_PROMPT_ECHO_OFF, lit "Password: "⟩
          ⟨lit "alice", lit "secret123"⟩).rc = PAM_CONV_ERR
      ∧ (pamConvFunc 2 ⟨PAM_PROMPT_ECHO_OFF, lit "Password: "⟩
          ⟨lit "alice", lit "secret123"⟩).respp = none
      ∧ (∀ b, Event.send_msg_userauth_banner b ∉
          (pamConvFunc 2 ⟨PAM_PROMPT_ECHO_OFF, lit "Password: "⟩
            ⟨lit "alice", lit "secret123"⟩).events)
      ∧ (pamConvFunc 2 ⟨PAM_PROMPT_ECHO_OFF, lit "Password: "⟩
          ⟨lit "alice", lit "secret123"⟩).userData = ⟨lit "alice", lit "secret123"⟩)
    ∧ (pamConvFunc 0 ⟨PAM_TEXT_INFO, lit "hello"⟩ ⟨lit "alice", lit "secret123"⟩).rc
        = PAM_CONV_ERR
    ∧ (pamConvFunc (-1) ⟨PAM_TEXT_INFO, lit "hello"⟩ ⟨lit "alice", lit "secret123"⟩).rc
        = PAM_CONV_ERR :=
  ⟨⟨by decide, by decide, by decide⟩,
   pamConvFunc_rejects_batch 2 ⟨PAM_PROMPT_ECHO_OFF, lit "Password: "⟩
     ⟨lit "alice", lit "secret123"⟩ (by decide),
   (pamConvFunc_rejects_batch 0 ⟨PAM_TEXT_INFO, lit "hello"⟩
     ⟨lit "alice", lit "secret123"⟩ (by decide)).1,
   (pamConvFunc_rejects_batch (-1) ⟨PAM_TEXT_INFO, lit "hello"⟩
     ⟨lit "alice", lit "secret123"⟩ (by decide)).1⟩

/-- C2, as stated, fails: with the 5-byte password "ab\0cd" a password prompt
is answered with the C string "ab", the bytes before the first NUL, not with a
copy of the password. -/
theorem pamConvFunc_response_stops_at_nul :
    (pamConvFunc 1 ⟨PAM_PROMPT_ECHO_OFF, lit "Password: "⟩
        ⟨lit "alice", [97, 98, 0, 99, 100]⟩).rc = PAM_SUCCESS
    ∧ (pamConvFunc 1 ⟨PAM_PROMPT_ECHO_OFF, lit "Password: "⟩
        ⟨lit "alice", [97, 98, 0, 99, 100]⟩).respp = some ⟨[97, 98], 0⟩
    ∧ (pamConvFunc 1 ⟨PAM_PROMPT_ECHO_OFF, lit "Password: "⟩
        ⟨lit "alice", [97, 98, 0, 99, 100]⟩).respp ≠ some ⟨[97, 98, 0, 99, 100], 0⟩ := by
  decide

/-- C2, amended: for a single prompt of style `PAM_PROMPT_ECHO_OFF` and any
text, `pamConvFunc` succeeds with a response exactly when the normalized text
equals "password:" ("Password: " is accepted, "Random Prompt:" is rejected).
On success the response is `m_strdup` of the password held in the credential
context before the call: a fresh copy of the C string `passwd` points to, that
is of the password bytes before the first NUL, with `resp_retcode` 0; it is a
copy of the whole password when the password contains no NUL byte.  On
rejection it returns `PAM_CONV_ERR`, stores no response and leaves the
password unchanged. -/
theorem pamConvFunc_secret_request (text : List Nat) (ud : UserDataS) :
    (((pamConvFunc 1 ⟨PAM_PROMPT_ECHO_OFF, text⟩ ud).rc = PAM_SUCCESS
        ∧ (pamConvFunc 1 ⟨PAM_PROMPT_ECHO_OFF, text⟩ ud).respp ≠ none)
      ↔ normalize text = lit "password:")
    ∧ (pamConvFunc 1 ⟨PAM_PROMPT_ECHO_OFF, text⟩ ud).rc
        = (if normalize text = lit "password:" then PAM_SUCCESS else PAM_CONV_ERR)
    ∧ (pamConvFunc 1 ⟨PAM_PROMPT_ECHO_OFF, text⟩ ud).respp
        = (if normalize text = lit "password:"
            then some ⟨m_strdup ud.passwd, 0⟩ else none)
    ∧ (m_strdup ud.passwd = cstr ud.passwd
        ∧ ((∀ c ∈ ud.passwd, c ≠ 0) → m_strdup ud.passwd = ud.passwd)
        ∧ ((∀ c ∈ ud.passwd, c ≠ 0) → normalize text = lit "password:" →
            (pamConvFunc 1 ⟨PAM_PROMPT_ECHO_OFF, text⟩ ud).respp = some ⟨ud.passwd, 0⟩))
    ∧ (pamConvFunc 1 ⟨PAM_PROMPT_ECHO_OFF, text⟩ ud).userData.passwd
        = (if normalize text = lit "password:"
            then m_burn ud.passwd (strlen ud.passwd) else ud.passwd)
    ∧ (pamConvFunc 1 ⟨PAM_PROMPT_ECHO_OFF, lit "Password: "⟩ ud).respp
        = some ⟨m_strdup ud.passwd, 0⟩
    ∧ (pamConvFunc 1 ⟨PAM_PROMPT_ECHO_OFF, lit "Random Prompt:"⟩ ud).rc = PAM_CONV_ERR
    ∧ (pamConvFunc 1 ⟨PAM_PROMPT_ECHO_OFF, lit "Random Prompt:"⟩ ud).respp = none := by
  have hl : ∀ c ∈ lit "password:", c ≠ 0 := by decide
  have key := strcmp_lit_iff text (lit "password:") hl
  have e1 : strcmp (compare_message (lit "Password: ")) (lit "password:") = 0 := by decide
  have e2 : ¬ strcmp (compare_message (lit "Random Prompt:")) (lit "password:") = 0 := by
    decide
  refine ⟨?_, ?_, ?_, ⟨rfl, m_strdup_of_nonzero, ?_⟩, ?_, ?_, ?_, ?_⟩
  · by_cases h : normalize text = lit "password:"
    · simp [pamConvFunc, key, h, PAM_SUCCESS]
    · simp [pamConvFunc, key, h, PAM_SUCCESS, PAM_CONV_ERR]
  · by_cases h : normalize text = lit "password:" <;> simp [pamConvFunc, key, h]
  · by_cases h : normalize text = lit "password:" <;> simp [pamConvFunc, key, h]
  · intro hz h
    simp [pamConvFunc, key, h, m_strdup_of_nonzero hz]
  · by_cases h : normalize text = lit "password:" <;> simp [pamConvFunc, key, h]
  · simp [pamConvFunc, e1]
  · simp [pamConvFunc, e2]
  · simp [pamConvFunc, e2]

/-- C3: for a single prompt of style `PAM_PROMPT_ECHO_ON` and any text,
`pamConvFunc` succeeds exactly when the normalized text is one of "login:",
"please enter username:", "username:" ("Login:" is accepted).  On success the
response is `m_strdup` of the user name of the credential context; whether it
succeeds or not, the credential context (so the password region) is left
unchanged and nothing is wiped. -/
theorem pamConvFunc_echoed_request (text : List Nat) (ud : UserDataS) :
    ((pamConvFunc 1 ⟨PAM_PROMPT_ECHO_ON, text⟩ ud).rc = PAM_SUCCESS
      ↔ normalize text ∈
          [lit "login:", lit "please enter username:", lit "username:"])
    ∧ (pamConvFunc 1 ⟨PAM_PROMPT_ECHO_ON, text⟩ ud).rc
        = (if normalize text ∈
              [lit "login:", lit "please enter username:", lit "username:"]
            then PAM_SUCCESS else PAM_CONV_ERR)
    ∧ (pamConvFunc 1 ⟨PAM_PROMPT_ECHO_ON, text⟩ ud).respp
        = (if normalize text ∈
              [lit "login:", lit "please enter username:", lit "username:"]
            then some ⟨m_strdup ud.user, 0⟩ else none)
    ∧ (pamConvFunc 1 ⟨PAM_PROMPT_ECHO_ON, text⟩ ud).userData = ud
    ∧ (∀ n, Event.m_burn n ∉ (pamConvFunc 1 ⟨PAM_PROMPT_ECHO_ON, text⟩ ud).events)
    ∧ (pamConvFunc 1 ⟨PAM_PROMPT_ECHO_ON, lit "Login:"⟩ ud).respp
        = some ⟨m_strdup ud.user, 0⟩ := by
  have k1 := strcmp_lit_iff text (lit "login:") (by decide)
  have k2 := strcmp_lit_iff text (lit "please enter username:") (by decide)
  have k3 := strcmp_lit_iff text (lit "username:") (by decide)
  have e1 : strcmp (compare_message (lit "Login:")) (lit "login:") = 0 := by decide
  have hs : PAM_PROMPT_ECHO_ON ≠ PAM_PROMPT_ECHO_OFF := by decide
  have hm : normalize text ∈
      [lit "login:", lit "please enter username:", lit "username:"]
      ↔ (normalize text = lit "login:" ∨ normalize text = lit "please enter username:"
          ∨ normalize text = lit "username:") := by simp
  simp only [hm]
  refine ⟨?_, ?_, ?_, ?_, ?_, ?_⟩
  · by_cases h : (normalize text = lit "login:"
        ∨ normalize text = lit "please enter username:" ∨ normalize text = lit "username:")
    · simp [pamConvFunc, hs, k1, k2, k3, h, PAM_SUCCESS]
    · simp [pamConvFunc, hs, k1, k2, k3, h, PAM_SUCCESS, PAM_CONV_ERR]
  · by_cases h : (normalize text = lit "login:"
        ∨ normalize text = lit "please enter username:" ∨ normalize text = lit "username:")
      <;> simp [pamConvFunc, hs, k1, k2, k3, h]
  · by_cases h : (normalize text = lit "login:"
        ∨ normalize text = lit "please enter username:" ∨ normalize text = lit "username:")
      <;> simp [pamConvFunc, hs, k1, k2, k3, h]
  · by_cases h : (normalize text = lit "login:"
        ∨ normalize text = lit "please enter username:" ∨ normalize text = lit "username:")
      <;> simp [pamConvFunc, hs, k1, k2, k3, h]
  · by_cases h : (normalize text = lit "login:"
        ∨ normalize text = lit "please enter username:" ∨ normalize text = lit "username:")
      <;> simp [pamConvFunc, hs, k1, k2, k3, h]
  · simp [pamConvFunc, hs, e1]

/-- C4, as stated, fails: with the 3-byte password "a\0b" a password prompt is
answered (with the C string "a") and on return the region is "\0\0b": the
byte after the embedded NUL is not zero. -/
theorem pamConvFunc_wipe_stops_at_nul :
    (pamConvFunc 1 ⟨PAM_PROMPT_ECHO_OFF, lit "Password: "⟩
        ⟨lit "alice", [97, 0, 98]⟩).respp = some ⟨[97], 0⟩
    ∧ (pamConvFunc 1 ⟨PAM_PROMPT_ECHO_OFF, lit "Password: "⟩
        ⟨lit "alice", [97, 0, 98]⟩).userData.passwd = [0, 0, 98]
    ∧ ¬ (∀ b ∈ (pamConvFunc 1 ⟨PAM_PROMPT_ECHO_OFF, lit "Password: "⟩
        ⟨lit "alice", [97, 0, 98]⟩).userData.passwd, b = 0) := by
  decide

/-- C4, amended: after any `pamConvFunc` call that produces a password
response, the bytes of the password region before its first NUL (the C string
that was copied into the response, `strlen` bytes) are all zero and the bytes
from there on are unchanged; so when the decoded password contains no NUL
byte, every byte of it is zero on return. -/
theorem pamConvFunc_wipes_cstring (num_msg : Int) (msg : pam_message) (ud : UserDataS)
    (hs : msg.msg_style = PAM_PROMPT_ECHO_OFF)
    (hr : (pamConvFunc num_msg msg ud).respp ≠ none) :
    (pamConvFunc num_msg msg ud).userData.passwd
        = List.replicate (strlen ud.passwd) 0 ++ ud.passwd.drop (strlen ud.passwd)
    ∧ ((∀ b ∈ ud.passwd, b ≠ 0) →
        (pamConvFunc num_msg msg ud).userData.passwd
          = List.replicate ud.passwd.length 0) := by
  have hb : ∀ (p : List Nat) (n : Nat), n ≤ p.length →
      m_burn p n = List.replicate n 0 ++ p.drop n := by
    intro p n hn
    unfold m_burn
    congr 1
    rw [List.eq_replicate_iff]
    constructor
    · simp [hn]
    · intro b hb
      simp at hb
      exact hb.2
  have hle : strlen ud.passwd ≤ ud.passwd.length := by
    unfold strlen cstr
    exact (List.takeWhile_sublist _).length_le
  have hp : (pamConvFunc num_msg msg ud).userData.passwd
      = m_burn ud.passwd (strlen ud.passwd) := by
    by_cases h1 : num_msg = 1
    · by_cases h2 : strcmp (compare_message msg.msg) (lit "password:") = 0
      · simp [pamConvFunc, h1, hs, h2]
      · simp [pamConvFunc, h1, hs, h2] at hr
    · simp [pamConvFunc, h1] at hr
  rw [hp, hb _ _ hle]
  refine ⟨rfl, ?_⟩
  intro hnz
  have : strlen ud.passwd = ud.passwd.length := by
    unfold strlen
    rw [cstr_of_nonzero hnz]
  rw [this]
  simp

/-- Witness for C4 amended: the password "secret123" answered to "Password: ". -/
theorem pamConvFunc_wipes_cstring_witness :
    (pamConvFunc 1 ⟨PAM_PROMPT_ECHO_OFF, lit "Password: "⟩
        ⟨lit "alice", lit "secret123"⟩).userData.passwd
      = List.replicate (strlen (lit "secret123")) 0
          ++ (lit "secret123").drop (strlen (lit "secret123"))
    ∧ ((∀ b ∈ lit "secret123", b ≠ 0) →
        (pamConvFunc 1 ⟨PAM_PROMPT_ECHO_OFF, lit "Password: "⟩
          ⟨lit "alice", lit "secret123"⟩).userData.passwd
          = List.replicate (lit "secret123").length 0) :=
  pamConvFunc_wipes_cstring 1 ⟨PAM_PROMPT_ECHO_OFF, lit "Password: "⟩
    ⟨lit "alice", lit "secret123"⟩ rfl (by decide)

/-- C5: the prompt normalization of `pamConvFunc` (lowercase every character,
then drop the final space of a text ending with ": ") is idempotent. -/
theorem normalize_idempotent (text : List Nat) :
    normalize (normalize text) = normalize text := by
  rw [normalize_eq (normalize text), cstr_of_nonzero (normalize_nonzero text),
    normalize_lower text, if_neg (normalize_no_strip text)]

/-- C6, as stated, fails: for an Info prompt with empty text `pamConvFunc`
returns success and stores no response, but hands no banner at all to
`send_msg_userauth_banner` (the claim promises the banner "\r\n\r\n"). -/
theorem pamConvFunc_empty_info_no_banner :
    (pamConvFunc 1 ⟨PAM_TEXT_INFO, []⟩ ⟨lit "alice", lit "secret123"⟩).rc = PAM_SUCCESS
    ∧ (pamConvFunc 1 ⟨PAM_TEXT_INFO, []⟩ ⟨lit "alice", lit "secret123"⟩).events = []
    ∧ (pamConvFunc 1 ⟨PAM_TEXT_INFO, []⟩ ⟨lit "alice", lit "secret123"⟩).events
        ≠ [Event.send_msg_userauth_banner (lit "\r\n" ++ [] ++ lit "\r\n")] := by
  decide

/-- C6, amended: for a single prompt of style Info or Error `pamConvFunc`
returns success, stores no response and leaves the credential context alone;
when the prompt text is not empty it hands exactly one banner to
`send_msg_userauth_banner`, whose bytes are "\r\n", the original
(un-normalized) text `cstr text`, "\r\n"; when the text is empty it sends no
banner. -/
theorem pamConvFunc_info_error (style : Int) (text : List Nat) (ud : UserDataS)
    (hs : style = PAM_ERROR_MSG ∨ style = PAM_TEXT_INFO) :
    (pamConvFunc 1 ⟨style, text⟩ ud).rc = PAM_SUCCESS
    ∧ (pamConvFunc 1 ⟨style, text⟩ ud).respp = none
    ∧ (pamConvFunc 1 ⟨style, text⟩ ud).userData = ud
    ∧ (pamConvFunc 1 ⟨style, text⟩ ud).events
        = (if 0 < strlen text
            then [Event.send_msg_userauth_banner (lit "\r\n" ++ cstr text ++ lit "\r\n")]
            else []) := by
  have h1 : style ≠ PAM_PROMPT_ECHO_OFF := by
    rcases hs with h | h <;> rw [h] <;> decide
  have h2 : style ≠ PAM_PROMPT_ECHO_ON := by
    rcases hs with h | h <;> rw [h] <;> decide
  have hl : strlen (m_strdup text) = strlen text := by simp [strlen, m_strdup, cstr_idem]
  have hpe := pam_err_eq text
  rw [hl] at hpe
  by_cases h0 : 0 < strlen text
  · simp [pamConvFunc, h1, h2, hs, hl, h0, hpe]
  · simp [pamConvFunc, h1, h2, hs, hl, h0]

/-- Witness for C6 amended: the Error prompt "Account locked". -/
theorem pamConvFunc_info_error_witness :
    (pamConvFunc 1 ⟨PAM_ERROR_MSG, lit "Account locked"⟩ ⟨lit "alice", lit "pw"⟩).rc
        = PAM_SUCCESS
    ∧ (pamConvFunc 1 ⟨PAM_ERROR_MSG, lit "Account locked"⟩ ⟨lit "alice", lit "pw"⟩).respp
        = none
    ∧ (pamConvFunc 1 ⟨PAM_ERROR_MSG, lit "Account locked"⟩ ⟨lit "alice", lit "pw"⟩).userData
        = ⟨lit "alice", lit "pw"⟩
    ∧ (pamConvFunc 1 ⟨PAM_ERROR_MSG, lit "Account locked"⟩ ⟨lit "alice", lit "pw"⟩).events
        = (if 0 < strlen (lit "Account locked")
            then [Event.send_msg_userauth_banner
              (lit "\r\n" ++ cstr (lit "Account locked") ++ lit "\r\n")]
            else []) :=
  pamConvFunc_info_error PAM_ERROR_MSG (lit "Account locked") ⟨lit "alice", lit "pw"⟩
    (Or.inl rfl)

/-! ## The step machine: lemmas -/

theorem converse_frame (cs : List ConvCall) (w : World) :
    (converse cs w).pam = w.pam
    ∧ (converse cs w).pam_credset = w.pam_credset
    ∧ (converse cs w).pam_sesopen = w.pam_sesopen
    ∧ (converse cs w).ncalls = w.ncalls := by
  induction cs generalizing w with
  | nil => simp [converse]
  | cons c cs ih =>
    have := ih { w with
      password := w.password.map (fun _ =>
        (pamConvFunc c.num_msg c.msg
          { user := w.username, passwd := w.password.getD [] }).userData.passwd),
      events := w.events ++ (pamConvFunc c.num_msg c.msg
          { user := w.username, passwd := w.password.getD [] }).events }
    simpa [converse] using this

theorem pamModuleCall_flags (op : PamOp) (w : World) :
    (pamModuleCall op w).2.pam_credset = w.pam_credset
    ∧ (pamModuleCall op w).2.pam_sesopen = w.pam_sesopen := by
  unfold pamModuleCall
  have := converse_frame (w.pamlib w.ncalls).conv
    { w with ncalls := w.ncalls + 1, events := w.events ++ [.pam op w.pam] }
  exact ⟨this.2.1, this.2.2.1⟩

theorem ret_inv (stack : List Pc) (w : World)
    (hf : flagsOk w) (hst : ∀ r ∈ stack, r = Pc.a291) : machineInv (ret stack w) := by
  cases stack with
  | nil => simp [ret, machineInv, hf]
  | cons r rest =>
    have hr : r = Pc.a291 := hst r (by simp)
    subst hr
    refine ⟨hf, ?_, ?_, ?_⟩
    · simp [ret]
    · simp [ret]
    · intro r hr
      exact hst r (by simp [ret] at hr; simp [hr])

/-- One step preserves the invariant. -/
theorem machineInv_step (c : Config) (h : machineInv c) : machineInv (step c) := by
  obtain ⟨pc, stack, w⟩ := c
  obtain ⟨hf, h1, h2, hst⟩ := h
  simp only [flagsOk] at hf
  simp only at h1 h2 hst
  cases pc
  case a295 => exact ret_inv stack w hf hst
  case c319 => exact ret_inv stack w hf hst
  all_goals
    simp only [step, machineInv, flagsOk]
    repeat' split
    all_goals
      simp_all [World.emit, logFailed, logBadAttempt, pamCall, pamModuleCall_flags]
    all_goals assumption

/-- The invariant holds along every run that starts in it. -/
theorem machineInv_run (n : Nat) (c : Config) (h : machineInv c) : machineInv (run n c) := by
  induction n generalizing c with
  | zero => exact h
  | succ n ih => exact ih (step c) (machineInv_step c h)

theorem pamOps_append (a b : List Event) : pamOps (a ++ b) = pamOps a ++ pamOps b := by
  induction a with
  | nil => rfl
  | cons e es ih => cases e <;> simp [pamOps, ih]

theorem newEvents_append (w0 w1 : World) (es : List Event)
    (h : w1.events = w0.events ++ es) : newEvents w0 w1 = es := by
  simp [newEvents, h]

theorem run_succ (n : Nat) (c : Config) : run (n + 1) c = run n (step c) := rfl

theorem run_zero (c : Config) : run 0 c = c := rfl

theorem step_a183 (st : List Pc) (w : World) :
    step ⟨.a183, st, w⟩ = ⟨.a196, st, { w with password := none }⟩ := rfl

theorem step_a196 (st : List Pc) (w : World) :
    step ⟨.a196, st, w⟩ =
      if w.req.changepw then
        ⟨.a288, st, (w.emit .buf_getbool).emit (.send_msg_userauth_failure 0 1)⟩
      else ⟨.a203, st, w.emit .buf_getbool⟩ := rfl

theorem step_a203 (st : List Pc) (w : World) :
    step ⟨.a203, st, w⟩ = ⟨.a212, st, { w.emit .buf_getstring with
      password := some w.req.password, passwordlen := w.req.password.length }⟩ := rfl

theorem step_a212 (st : List Pc) (w : World) :
    step ⟨.a212, st, w⟩ =
      if (w.pamlib w.ncalls).rc ≠ PAM_SUCCESS then
        ⟨.a288, st, logFailed "pam_start() failed, rc=%d, %s" (w.pamlib w.ncalls).rc
          { w with pam := (w.pamlib w.ncalls).pamh, ncalls := w.ncalls + 1,
                   events := w.events ++ [.pam .pam_start (w.pamlib w.ncalls).pamh] }⟩
      else
        ⟨.a218, st,
          { w with pam := (w.pamlib w.ncalls).pamh, ncalls := w.ncalls + 1,
                   events := w.events ++ [.pam .pam_start (w.pamlib w.ncalls).pamh] }⟩ := rfl

theorem step_a218 (st : List Pc) (w : World) :
    step ⟨.a218, st, w⟩ =
      if (pamCall (.pam_set_item PAM_RHOST) w).1 ≠ PAM_SUCCESS then
        ⟨.a288, st, logFailed "pam_set_item(PAM_RHOST) failed, rc=%d, %s"
          (pamCall (.pam_set_item PAM_RHOST) w).1 (pamCall (.pam_set_item PAM_RHOST) w).2⟩
      else ⟨.a225, st, (pamCall (.pam_set_item PAM_RHOST) w).2⟩ := rfl

theorem step_a225 (st : List Pc) (w : World) :
    step ⟨.a225, st, w⟩ =
      if (if (pamCall (.pam_set_item PAM_TTY) w).1 ≠ PAM_SUCCESS then (1 : Int) else 0) ≠ 0 then
        ⟨.a288, st, logFailed "pam_set_item() failed, rc=%d, %s"
          (if (pamCall (.pam_set_item PAM_TTY) w).1 ≠ PAM_SUCCESS then (1 : Int) else 0)
          (pamCall (.pam_set_item PAM_TTY) w).2⟩
      else ⟨.a233, st, (pamCall (.pam_set_item PAM_TTY) w).2⟩ := rfl

theorem step_a233 (st : List Pc) (w : World) :
    step ⟨.a233, st, w⟩ =
      if w.have_pam_fail_delay then ⟨.a238, st, (pamCall .pam_fail_delay w).2⟩
      else ⟨.a238, st, w⟩ := rfl

theorem step_a238 (st : List Pc) (w : World) :
    step ⟨.a238, st, w⟩ =
      if (pamModuleCall .pam_authenticate w).1 ≠ PAM_SUCCESS then
        ⟨.a288, st,
          (logBadAttempt (logFailed "pam_authenticate() failed, rc=%d, %s"
            (pamModuleCall .pam_authenticate w).1 (pamModuleCall .pam_authenticate w).2)).emit
            (.send_msg_userauth_failure 0 1)⟩
      else ⟨.a249, st, (pamModuleCall .pam_authenticate w).2⟩ := rfl

theorem step_a249 (st : List Pc) (w : World) :
    step ⟨.a249, st, w⟩ =
      if (if (pamModuleCall .pam_acct_mgmt w).1 = PAM_NEW_AUTHTOK_REQD then
            pamModuleCall (.pam_chauthtok PAM_CHANGE_EXPIRED_AUTHTOK)
              (pamModuleCall .pam_acct_mgmt w).2
          else pamModuleCall .pam_acct_mgmt w).1 ≠ PAM_SUCCESS then
        ⟨.a288, st,
          (logBadAttempt (logFailed "pam_acct_mgmt() failed, rc=%d, %s"
            (if (pamModuleCall .pam_acct_mgmt w).1 = PAM_NEW_AUTHTOK_REQD then
                pamModuleCall (.pam_chauthtok PAM_CHANGE_EXPIRED_AUTHTOK)
                  (pamModuleCall .pam_acct_mgmt w).2
              else pamModuleCall .pam_acct_mgmt w).1
            (if (pamModuleCall .pam_acct_mgmt w).1 = PAM_NEW_AUTHTOK_REQD then
                pamModuleCall (.pam_chauthtok PAM_CHANGE_EXPIRED_AUTHTOK)
                  (pamModuleCall .pam_acct_mgmt w).2
              else pamModuleCall .pam_acct_mgmt w).2)).emit
            (.send_msg_userauth_failure 0 1)⟩
      else
        ⟨.a263, st,
          (if (pamModuleCall .pam_acct_mgmt w).1 = PAM_NEW_AUTHTOK_REQD then
              pamModuleCall (.pam_chauthtok PAM_CHANGE_EXPIRED_AUTHTOK)
                (pamModuleCall .pam_acct_mgmt w).2
            else pamModuleCall .pam_acct_mgmt w).2⟩ := rfl

theorem step_a263 (st : List Pc) (w : World) :
    step ⟨.a263, st, w⟩ =
      if (pamModuleCall (.pam_setcred PAM_ESTABLISH_CRED) w).1 ≠ PAM_SUCCESS then
        ⟨.a288, st,
          (logFailed "pam_setcred() failed, rc=%d, %s"
            (pamModuleCall (.pam_setcred PAM_ESTABLISH_CRED) w).1
            (pamModuleCall (.pam_setcred PAM_ESTABLISH_CRED) w).2).emit
            (.send_msg_userauth_failure 0 1)⟩
      else ⟨.a269, st, (pamModuleCall (.pam_setcred PAM_ESTABLISH_CRED) w).2⟩ := rfl

theorem step_a269 (st : List Pc) (w : World) :
    step ⟨.a269, st, w⟩ = ⟨.a272, st, { w with pam_credset := true }⟩ := rfl

theorem step_a272 (st : List Pc) (w : World) :
    step ⟨.a272, st, w⟩ = ⟨.a276, st,
      w.emit (.dropbear_log LOG_NOTICE "PAM password auth succeeded for '%s' from %s"
        [.str (cstr w.username), .str (cstr w.addrstring)])⟩ := rfl

theorem step_a276 (st : List Pc) (w : World) :
    step ⟨.a276, st, w⟩ =
      if (pamModuleCall .pam_open_session w).1 ≠ PAM_SUCCESS then
        ⟨.a288, st,
          (logFailed "pam_open_session() failed, rc=%d, %s"
            (pamModuleCall .pam_open_session w).1
            (pamModuleCall .pam_open_session w).2).emit
            (.send_msg_userauth_failure 0 1)⟩
      else ⟨.a282, st, (pamModuleCall .pam_open_session w).2⟩ := rfl

theorem step_a282 (st : List Pc) (w : World) :
    step ⟨.a282, st, w⟩ = ⟨.a284, st, { w with pam_sesopen := true }⟩ := rfl

theorem step_a284 (st : List Pc) (w : World) :
    step ⟨.a284, st, w⟩ = ⟨.a291, st, w.emit .send_msg_userauth_success⟩ := rfl

theorem step_a288 (st : List Pc) (w : World) :
    step ⟨.a288, st, w⟩ = ⟨.c300, .a291 :: st, w⟩ := rfl

theorem step_a291 (st : List Pc) (w : World) :
    step ⟨.a291, st, w⟩ =
      match w.password with
      | some p =>
        ⟨.a295, st, { (w.emit (.m_burn w.passwordlen)).emit .m_free with
          password := some (m_burn p w.passwordlen) }⟩
      | none => ⟨.a295, st, w⟩ := rfl

theorem step_a295 (st : List Pc) (w : World) : step ⟨.a295, st, w⟩ = ret st w := rfl

theorem step_c300 (st : List Pc) (w : World) :
    step ⟨.c300, st, w⟩ = if w.pam ≠ 0 then ⟨.c301, st, w⟩ else ⟨.c319, st, w⟩ := rfl

theorem step_c301 (st : List Pc) (w : World) :
    step ⟨.c301, st, w⟩ =
      if w.pam_sesopen then
        if (pamCall (.pam_close_session PAM_SILENT) w).1 ≠ PAM_SUCCESS then
          ⟨.c306, st, logFailed "pam_close_session() failed, rc=%d, %s"
            (pamCall (.pam_close_session PAM_SILENT) w).1
            (pamCall (.pam_close_session PAM_SILENT) w).2⟩
        else ⟨.c306, st, (pamCall (.pam_close_session PAM_SILENT) w).2⟩
      else ⟨.c308, st, w⟩ := rfl

theorem step_c306 (st : List Pc) (w : World) :
    step ⟨.c306, st, w⟩ = ⟨.c308, st, { w with pam_sesopen := false }⟩ := rfl

theorem step_c308 (st : List Pc) (w : World) :
    step ⟨.c308, st, w⟩ =
      if w.pam_credset then
        if (pamCall (.pam_setcred PAM_DELETE_CRED) w).1 ≠ PAM_SUCCESS then
          ⟨.c313, st, logFailed "pam_setcred() failed, rc=%d, %s"
            (pamCall (.pam_setcred PAM_DELETE_CRED) w).1
            (pamCall (.pam_setcred PAM_DELETE_CRED) w).2⟩
        else ⟨.c313, st, (pamCall (.pam_setcred PAM_DELETE_CRED) w).2⟩
      else ⟨.c317, st, w⟩ := rfl

theorem step_c313 (st : List Pc) (w : World) :
    step ⟨.c313, st, w⟩ = ⟨.c317, st, { w with pam_credset := false }⟩ := rfl

theorem step_c317 (st : List Pc) (w : World) :
    step ⟨.c317, st, w⟩ = ⟨.c319, st, (pamCall .pam_end w).2⟩ := rfl

theorem step_c319 (st : List Pc) (w : World) : step ⟨.c319, st, w⟩ = ret st w := rfl

theorem step_halt (st : List Pc) (w : World) : step ⟨.halt, st, w⟩ = ⟨.halt, st, w⟩ := rfl

theorem run_halt (n : Nat) (st : List Pc) (w : World) :
    run n ⟨.halt, st, w⟩ = ⟨.halt, st, w⟩ := by
  induction n with
  | zero => rfl
  | succ n ih => rw [run_succ, step_halt, ih]

/-- Every step of a configuration that has not halted lowers its weight. -/
theorem step_weight (c : Config) (h : c.pc ≠ .halt) : (step c).weight < c.weight := by
  obtain ⟨pc, st, w⟩ := c
  have hret : ∀ w0 : World, (ret st w0).weight < 1 + (st.map (fun r => r.dist + 1)).sum := by
    intro w0
    cases st with
    | nil => simp [ret, Config.weight, Pc.dist]
    | cons r rest => simp [ret, Config.weight]; omega
  cases pc
  case halt => exact absurd rfl h
  case a295 => simpa [step_a295, Config.weight, Pc.dist] using hret w
  case c319 => simpa [step_c319, Config.weight, Pc.dist] using hret w
  case a291 =>
    rw [step_a291]
    cases w.password <;> simp [Config.weight, Pc.dist]
  all_goals
    simp only [step]
    repeat' split
    all_goals simp [Config.weight, Pc.dist]
    all_goals omega

/-- A configuration halts within as many steps as its weight. -/
theorem run_halts (n : Nat) (c : Config) (h : c.weight ≤ n) : (run n c).pc = .halt := by
  induction n generalizing c with
  | zero =>
    have h0 : c.pc.dist = 0 := by
      unfold Config.weight at h
      omega
    rw [run_zero]
    cases hpc : c.pc <;> rw [hpc] at h0 <;> simp [Pc.dist] at h0
  | succ n ih =>
    by_cases hh : c.pc = .halt
    · obtain ⟨pc, st, w⟩ := c
      simp only at hh
      subst hh
      rw [run_halt]
    · rw [run_succ]
      apply ih
      have := step_weight c hh
      omega

/-- The function `svr_auth_pam` returns: the machine halts within `authFuel` steps. -/
theorem svr_auth_pam_halts (w : World) : (run authFuel ⟨.a183, [], w⟩).pc = .halt :=
  run_halts _ _ (by simp [Config.weight, Pc.dist, authFuel])

/-- The function `svr_auth_pam_cleanup` returns: the machine halts within `cleanupFuel` steps. -/
theorem svr_auth_pam_cleanup_halts (w : World) :
    (run cleanupFuel ⟨.c300, [], w⟩).pc = .halt :=
  run_halts _ _ (by simp [Config.weight, Pc.dist, cleanupFuel])

/-- What one call of `svr_auth_pam_cleanup` does: the handle is kept as it
is, both flags are cleared when the handle is not NULL, and the PAM calls
issued are the close (if the session was open), the delete (if credentials
were established) and `pam_end`; with a NULL handle nothing is done. -/
theorem cleanup_facts (w : World) :
    (svr_auth_pam_cleanup w).pam = w.pam
    ∧ (w.pam ≠ 0 → (svr_auth_pam_cleanup w).pam_sesopen = false
        ∧ (svr_auth_pam_cleanup w).pam_credset = false)
    ∧ (w.pam = 0 → (svr_auth_pam_cleanup w).pam_sesopen = w.pam_sesopen
        ∧ (svr_auth_pam_cleanup w).pam_credset = w.pam_credset)
    ∧ ∃ es, (svr_auth_pam_cleanup w).events = w.events ++ es
        ∧ pamOps es = if w.pam = 0 then [] else
            (if w.pam_sesopen then [PamOp.pam_close_session PAM_SILENT] else [])
            ++ (if w.pam_credset then [PamOp.pam_setcred PAM_DELETE_CRED] else [])
            ++ [PamOp.pam_end] := by
  by_cases hp : w.pam = 0
  · simp [svr_auth_pam_cleanup, cleanupFuel, run_succ, run_zero, step_c300, step_c319,
      step_halt, ret, hp, pamOps]
  · by_cases hs : w.pam_sesopen = true <;> by_cases hc : w.pam_credset = true <;>
      by_cases h1 : (w.pamlib w.ncalls).rc = PAM_SUCCESS <;>
      by_cases h2 : (w.pamlib (w.ncalls + 1)).rc = PAM_SUCCESS
    all_goals
      simp [svr_auth_pam_cleanup, cleanupFuel, run_succ, run_zero, step_c300, step_c301,
        step_c306, step_c308, step_c313, step_c317, step_c319, step_halt, ret, hp, hs, hc,
        pamCall, h1, h2, logFailed, World.emit, pamOps]

/-! ## The session state machine: claims C7 to C10 -/

/-- C7: starting from a session state whose two flags are both false, at every
point of `svr_auth_pam` and of `svr_auth_pam_cleanup` (after any number `n` of
steps, whatever the PAM library answers) `pam_sesopen` set implies
`pam_credset` set; this also holds at every point of a cleanup that runs later
on the state `svr_auth_pam` returned. -/
theorem sesopen_implies_credset (w : World)
    (hc : w.pam_credset = false) (hs : w.pam_sesopen = false) (n : Nat) :
    flagsOk (run n ⟨.a183, [], w⟩).w
    ∧ flagsOk (run n ⟨.c300, [], w⟩).w
    ∧ flagsOk (run n ⟨.c300, [], svr_auth_pam w⟩).w := by
  have h0 : ∀ pc : Pc, pc = .a183 ∨ pc = .c300 → machineInv ⟨pc, [], w⟩ := by
    intro pc hpc
    rcases hpc with h | h <;> subst h <;> simp [machineInv, flagsOk, hs, hc]
  have h1 : machineInv ⟨.c300, [], svr_auth_pam w⟩ := by
    have := (machineInv_run authFuel _ (h0 .a183 (Or.inl rfl))).1
    simp [machineInv]
    exact this
  exact ⟨(machineInv_run n _ (h0 .a183 (Or.inl rfl))).1,
    (machineInv_run n _ (h0 .c300 (Or.inr rfl))).1,
    (machineInv_run n _ h1).1⟩

/-- Witness for C7: user "alice" with password "secret123", every PAM call
succeeds; after 14 steps the session has just been marked open. -/
theorem sesopen_implies_credset_witness :
    (run 14 ⟨.a183, [],
        World.fresh ⟨false, lit "secret123"⟩ (lit "alice") ⟨PAM_SUCCESS, 7, []⟩⟩).w.pam_sesopen
      = true
    ∧ flagsOk (run 14 ⟨.a183, [],
        World.fresh ⟨false, lit "secret123"⟩ (lit "alice") ⟨PAM_SUCCESS, 7, []⟩⟩).w
    ∧ flagsOk (run 14 ⟨.c300, [],
        World.fresh ⟨false, lit "secret123"⟩ (lit "alice") ⟨PAM_SUCCESS, 7, []⟩⟩).w
    ∧ flagsOk (run 14 ⟨.c300, [], svr_auth_pam
        (World.fresh ⟨false, lit "secret123"⟩ (lit "alice") ⟨PAM_SUCCESS, 7, []⟩)⟩).w :=
  ⟨by decide,
   sesopen_implies_credset
     (World.fresh ⟨false, lit "secret123"⟩ (lit "alice") ⟨PAM_SUCCESS, 7, []⟩) rfl rfl 14⟩

/-- C8: for every session state and whatever the PAM library answers, two
consecutive calls of `svr_auth_pam_cleanup` (both of which return) issue the
close-session operation at most once and the delete-credentials operation at
most once in total. -/
theorem cleanup_twice_closes_once (w : World) :
    (run cleanupFuel ⟨.c300, [], w⟩).pc = .halt
    ∧ (run cleanupFuel ⟨.c300, [], svr_auth_pam_cleanup w⟩).pc = .halt
    ∧ (pamOps (newEvents w (svr_auth_pam_cleanup (svr_auth_pam_cleanup w)))).countP
        isCloseSession ≤ 1
    ∧ (pamOps (newEvents w (svr_auth_pam_cleanup (svr_auth_pam_cleanup w)))).countP
        isDeleteCred ≤ 1 := by
  refine ⟨svr_auth_pam_cleanup_halts _, svr_auth_pam_cleanup_halts _, ?_⟩
  obtain ⟨hpam, hfl, _, es1, he1, ho1⟩ := cleanup_facts w
  obtain ⟨_, _, _, es2, he2, ho2⟩ := cleanup_facts (svr_auth_pam_cleanup w)
  have hnew : newEvents w (svr_auth_pam_cleanup (svr_auth_pam_cleanup w)) = es1 ++ es2 :=
    newEvents_append _ _ _ (by rw [he2, he1, List.append_assoc])
  rw [hnew, pamOps_append, ho1, ho2, hpam]
  by_cases hp : w.pam = 0
  · simp [hp]
  · obtain ⟨hs', hc'⟩ := hfl hp
    rw [hs', hc']
    by_cases hs : w.pam_sesopen = true <;> by_cases hc : w.pam_credset = true <;>
      simp [hp, hs, hc, isCloseSession, isDeleteCred, PAM_DELETE_CRED, List.countP_cons]

/-- C9 fails on the code: on a handle that is not NULL (here 7, both flags
clear) the first cleanup calls `pam_end`, leaves `ses.authstate.pam` as it
was, and the second cleanup calls `pam_end` on the same handle again.  The
same happens in a whole run: an attempt whose `pam_authenticate` fails (the
fifth PAM call, result `PAM_AUTH_ERR` = 7) ends the handle in its own cleanup,
and a later `svr_auth_pam_cleanup` ends it a second time. -/
theorem cleanup_twice_ends_twice :
    newEvents
        { World.fresh ⟨false, lit "secret123"⟩ (lit "alice") ⟨PAM_SUCCESS, 7, []⟩
          with pam := 7 }
        (svr_auth_pam_cleanup
          { World.fresh ⟨false, lit "secret123"⟩ (lit "alice") ⟨PAM_SUCCESS, 7, []⟩
            with pam := 7 })
      = [.pam .pam_end 7]
    ∧ newEvents
        (svr_auth_pam_cleanup
          { World.fresh ⟨false, lit "secret123"⟩ (lit "alice") ⟨PAM_SUCCESS, 7, []⟩
            with pam := 7 })
        (svr_auth_pam_cleanup (svr_auth_pam_cleanup
          { World.fresh ⟨false, lit "secret123"⟩ (lit "alice") ⟨PAM_SUCCESS, 7, []⟩
            with pam := 7 }))
      = [.pam .pam_end 7]
    ∧ pamOps (svr_auth_pam_cleanup (svr_auth_pam
        { World.fresh ⟨false, lit "secret123"⟩ (lit "alice") ⟨PAM_SUCCESS, 7, []⟩
          with pamlib := fun n => if n = 4 then ⟨7, 7, []⟩ else ⟨PAM_SUCCESS, 7, []⟩ })).events
      = [.pam_start, .pam_set_item PAM_RHOST, .pam_set_item PAM_TTY, .pam_fail_delay,
         .pam_authenticate, .pam_end, .pam_end] := by
  decide

/-- The same for every state: a cleanup that follows a cleanup of a handle
that is not NULL issues exactly `pam_end`, once more. -/
theorem cleanup_again_ends_again (w : World) (h : w.pam ≠ 0) :
    pamOps (newEvents (svr_auth_pam_cleanup w)
      (svr_auth_pam_cleanup (svr_auth_pam_cleanup w))) = [.pam_end] := by
  obtain ⟨hpam, hfl, _, _⟩ := cleanup_facts w
  obtain ⟨_, _, _, es2, he2, ho2⟩ := cleanup_facts (svr_auth_pam_cleanup w)
  obtain ⟨hs', hc'⟩ := hfl h
  rw [newEvents_append _ _ _ he2, ho2, hpam, hs', hc']
  simp [h]

/-- C10: for every request whose "change password" flag is true, run from a
session state without transaction handle and with both flags false,
`svr_auth_pam` returns having sent exactly one `send_msg_userauth_failure`
with `partial = 0` and no success message; it issues no PAM library call (no
`pam_start`, nothing else), never calls `buf_getstring` to decode the
password (`password` stays NULL), and leaves handle and flags as they were. -/
theorem changepw_rejected (w : World) (hch : w.req.changepw = true) (hp : w.pam = 0)
    (hc : w.pam_credset = false) (hs : w.pam_sesopen = false) :
    (run authFuel ⟨.a183, [], w⟩).pc = .halt
    ∧ newEvents w (svr_auth_pam w) = [.buf_getbool, .send_msg_userauth_failure 0 1]
    ∧ pamOps (newEvents w (svr_auth_pam w)) = []
    ∧ Event.buf_getstring ∉ newEvents w (svr_auth_pam w)
    ∧ Event.send_msg_userauth_success ∉ newEvents w (svr_auth_pam w)
    ∧ (svr_auth_pam w).password = none
    ∧ (svr_auth_pam w).ncalls = w.ncalls
    ∧ (svr_auth_pam w).pam = 0
    ∧ (svr_auth_pam w).pam_credset = false
    ∧ (svr_auth_pam w).pam_sesopen = false := by
  refine ⟨svr_auth_pam_halts w, ?_⟩
  have hrun : svr_auth_pam w =
      { w with password := none,
               events := w.events ++ [.buf_getbool, .send_msg_userauth_failure 0 1] } := by
    simp [svr_auth_pam, authFuel, run_succ, step_a183, step_a196, step_a288, step_c300,
      step_c319, step_a291, step_a295, step_halt, run_zero, ret, hch, hp, World.emit]
  have hnew : newEvents w (svr_auth_pam w)
      = [.buf_getbool, .send_msg_userauth_failure 0 1] :=
    newEvents_append _ _ _ (by rw [hrun])
  rw [hnew]
  simp [hrun, hp, hc, hs, pamOps]

/-- Witness for C10: a change-password request for "alice" in a fresh session. -/
theorem changepw_rejected_witness :
    (World.fresh ⟨true, lit "secret123"⟩ (lit "alice") ⟨PAM_SUCCESS, 7, []⟩).req.changepw
      = true
    ∧ newEvents (World.fresh ⟨true, lit "secret123"⟩ (lit "alice") ⟨PAM_SUCCESS, 7, []⟩)
        (svr_auth_pam
          (World.fresh ⟨true, lit "secret123"⟩ (lit "alice") ⟨PAM_SUCCESS, 7, []⟩))
      = [.buf_getbool, .send_msg_userauth_failure 0 1] :=
  ⟨rfl,
   (changepw_rejected
     (World.fresh ⟨true, lit "secret123"⟩ (lit "alice") ⟨PAM_SUCCESS, 7, []⟩)
     rfl rfl rfl rfl).2.1⟩

/-! ## Running to the end: lemmas -/

theorem run_add (a b : Nat) (c : Config) : run (a + b) c = run b (run a c) := by
  induction a generalizing c with
  | zero => simp [run_zero]
  | succ a ih => rw [Nat.add_right_comm, run_succ, ih, run_succ]

theorem run_stable (n m : Nat) (c : Config) (h : (run n c).pc = .halt) (hm : n ≤ m) :
    run m c = run n c := by
  obtain ⟨k, rfl⟩ := Nat.exists_eq_add_of_le hm
  rw [run_add]
  generalize run n c = d at h
  obtain ⟨pc, st, w⟩ := d
  simp only at h
  subst h
  exact run_halt k st w

/-- Any fuel that covers the weight gives the final state. -/
theorem run_final (n : Nat) (c : Config) (h : c.weight ≤ n) : (run n c).w = c.final := by
  unfold Config.final
  rw [run_stable c.weight n c (run_halts _ _ (Nat.le_refl _)) h]

theorem svr_auth_pam_final (w : World) : svr_auth_pam w = Config.final ⟨.a183, [], w⟩ :=
  run_final _ _ (by simp [Config.weight, Pc.dist, authFuel])

theorem svr_auth_pam_cleanup_final (w : World) :
    svr_auth_pam_cleanup w = Config.final ⟨.c300, [], w⟩ :=
  run_final _ _ (by simp [Config.weight, Pc.dist, cleanupFuel])

theorem final_halt (st : List Pc) (w : World) : Config.final ⟨.halt, st, w⟩ = w := by
  unfold Config.final
  rw [run_halt]

/-- The final state is that of the configuration after one step. -/
theorem final_step (c : Config) (h : c.pc ≠ .halt) : c.final = (step c).final := by
  have hw := step_weight c h
  have h1 : c.weight = (c.weight - 1) + 1 := by omega
  rw [← run_final (c.weight - 1) (step c) (by omega)]
  unfold Config.final
  rw [h1, run_succ]
  simp

theorem final_ite (p : Prop) [Decidable p] (a b : Config) :
    (if p then a else b).final = if p then a.final else b.final := by
  split <;> rfl

theorem final_a183 (st : List Pc) (w : World) :
    Config.final ⟨.a183, st, w⟩ = Config.final ⟨.a196, st, { w with password := none }⟩ := by
  rw [final_step _ (by simp), step_a183]

theorem final_a196 (st : List Pc) (w : World) :
    Config.final ⟨.a196, st, w⟩ =
      if w.req.changepw then
        Config.final ⟨.a288, st,
          (w.emit .buf_getbool).emit (.send_msg_userauth_failure 0 1)⟩
      else Config.final ⟨.a203, st, w.emit .buf_getbool⟩ := by
  rw [final_step _ (by simp), step_a196, final_ite]

theorem final_a203 (st : List Pc) (w : World) :
    Config.final ⟨.a203, st, w⟩ = Config.final ⟨.a212, st, { w.emit .buf_getstring with
      password := some w.req.password, passwordlen := w.req.password.length }⟩ := by
  rw [final_step _ (by simp), step_a203]

theorem final_a212 (st : List Pc) (w : World) :
    Config.final ⟨.a212, st, w⟩ =
      if (w.pamlib w.ncalls).rc ≠ PAM_SUCCESS then
        Config.final ⟨.a288, st,
          logFailed "pam_start() failed, rc=%d, %s" (w.pamlib w.ncalls).rc
            { w with pam := (w.pamlib w.ncalls).pamh, ncalls := w.ncalls + 1,
                     events := w.events ++ [.pam .pam_start (w.pamlib w.ncalls).pamh] }⟩
      else
        Config.final ⟨.a218, st,
          { w with pam := (w.pamlib w.ncalls).pamh, ncalls := w.ncalls + 1,
                   events := w.events ++ [.pam .pam_start (w.pamlib w.ncalls).pamh] }⟩ := by
  rw [final_step _ (by simp), step_a212, final_ite]

theorem final_a218 (st : List Pc) (w : World) :
    Config.final ⟨.a218, st, w⟩ =
      if (pamCall (.pam_set_item PAM_RHOST) w).1 ≠ PAM_SUCCESS then
        Config.final ⟨.a288, st, logFailed "pam_set_item(PAM_RHOST) failed, rc=%d, %s"
          (pamCall (.pam_set_item PAM_RHOST) w).1 (pamCall (.pam_set_item PAM_RHOST) w).2⟩
      else Config.final ⟨.a225, st, (pamCall (.pam_set_item PAM_RHOST) w).2⟩ := by
  rw [final_step _ (by simp), step_a218, final_ite]

theorem final_a225 (st : List Pc) (w : World) :
    Config.final ⟨.a225, st, w⟩ =
      if (pamCall (.pam_set_item PAM_TTY) w).1 ≠ PAM_SUCCESS then
        Config.final ⟨.a288, st, logFailed "pam_set_item() failed, rc=%d, %s" 1
          (pamCall (.pam_set_item PAM_TTY) w).2⟩
      else Config.final ⟨.a233, st, (pamCall (.pam_set_item PAM_TTY) w).2⟩ := by
  rw [final_step _ (by simp), step_a225, final_ite]
  by_cases h : (pamCall (.pam_set_item PAM_TTY) w).1 = PAM_SUCCESS <;> simp [h]

theorem final_a233 (st : List Pc) (w : World) :
    Config.final ⟨.a233, st, w⟩ =
      if w.have_pam_fail_delay then Config.final ⟨.a238, st, (pamCall .pam_fail_delay w).2⟩
      else Config.final ⟨.a238, st, w⟩ := by
  rw [final_step _ (by simp), step_a233, final_ite]

theorem final_a238 (st : List Pc) (w : World) :
    Config.final ⟨.a238, st, w⟩ =
      if (pamModuleCall .pam_authenticate w).1 ≠ PAM_SUCCESS then
        Config.final ⟨.a288, st,
          (logBadAttempt (logFailed "pam_authenticate() failed, rc=%d, %s"
            (pamModuleCall .pam_authenticate w).1 (pamModuleCall .pam_authenticate w).2)).emit
            (.send_msg_userauth_failure 0 1)⟩
      else Config.final ⟨.a249, st, (pamModuleCall .pam_authenticate w).2⟩ := by
  rw [final_step _ (by simp), step_a238, final_ite]

theorem final_a249 (st : List Pc) (w : World) :
    Config.final ⟨.a249, st, w⟩ =
      if (pamModuleCall .pam_acct_mgmt w).1 = PAM_NEW_AUTHTOK_REQD then
        if (pamModuleCall (.pam_chauthtok PAM_CHANGE_EXPIRED_AUTHTOK)
              (pamModuleCall .pam_acct_mgmt w).2).1 ≠ PAM_SUCCESS then
          Config.final ⟨.a288, st,
            (logBadAttempt (logFailed "pam_acct_mgmt() failed, rc=%d, %s"
              (pamModuleCall (.pam_chauthtok PAM_CHANGE_EXPIRED_AUTHTOK)
                (pamModuleCall .pam_acct_mgmt w).2).1
              (pamModuleCall (.pam_chauthtok PAM_CHANGE_EXPIRED_AUTHTOK)
                (pamModuleCall .pam_acct_mgmt w).2).2)).emit
              (.send_msg_userauth_failure 0 1)⟩
        else
          Config.final ⟨.a263, st,
            (pamModuleCall (.pam_chauthtok PAM_CHANGE_EXPIRED_AUTHTOK)
              (pamModuleCall .pam_acct_mgmt w).2).2⟩
      else
        if (pamModuleCall .pam_acct_mgmt w).1 ≠ PAM_SUCCESS then
          Config.final ⟨.a288, st,
            (logBadAttempt (logFailed "pam_acct_mgmt() failed, rc=%d, %s"
              (pamModuleCall .pam_acct_mgmt w).1 (pamModuleCall .pam_acct_mgmt w).2)).emit
              (.send_msg_userauth_failure 0 1)⟩
        else Config.final ⟨.a263, st, (pamModuleCall .pam_acct_mgmt w).2⟩ := by
  rw [final_step _ (by simp), step_a249, final_ite]
  by_cases h : (pamModuleCall .pam_acct_mgmt w).1 = PAM_NEW_AUTHTOK_REQD <;> simp [h]

theorem final_a263 (st : List Pc) (w : World) :
    Config.final ⟨.a263, st, w⟩ =
      if (pamModuleCall (.pam_setcred PAM_ESTABLISH_CRED) w).1 ≠ PAM_SUCCESS then
        Config.final ⟨.a288, st,
          (logFailed "pam_setcred() failed, rc=%d, %s"
            (pamModuleCall (.pam_setcred PAM_ESTABLISH_CRED) w).1
            (pamModuleCall (.pam_setcred PAM_ESTABLISH_CRED) w).2).emit
            (.send_msg_userauth_failure 0 1)⟩
      else Config.final ⟨.a269, st, (pamModuleCall (.pam_setcred PAM_ESTABLISH_CRED) w).2⟩ := by
  rw [final_step _ (by simp), step_a263, final_ite]

theorem final_a269 (st : List Pc) (w : World) :
    Config.final ⟨.a269, st, w⟩ = Config.final ⟨.a272, st, { w with pam_credset := true }⟩ := by
  rw [final_step _ (by simp), step_a269]

theorem final_a272 (st : List Pc) (w : World) :
    Config.final ⟨.a272, st, w⟩ = Config.final ⟨.a276, st, w.emit (successLog w)⟩ := by
  rw [final_step _ (by simp), step_a272]
  rfl

theorem final_a276 (st : List Pc) (w : World) :
    Config.final ⟨.a276, st, w⟩ =
      if (pamModuleCall .pam_open_session w).1 ≠ PAM_SUCCESS then
        Config.final ⟨.a288, st,
          (logFailed "pam_open_session() failed, rc=%d, %s"
            (pamModuleCall .pam_open_session w).1
            (pamModuleCall .pam_open_session w).2).emit
            (.send_msg_userauth_failure 0 1)⟩
      else Config.final ⟨.a282, st, (pamModuleCall .pam_open_session w).2⟩ := by
  rw [final_step _ (by simp), step_a276, final_ite]

theorem final_a282 (st : List Pc) (w : World) :
    Config.final ⟨.a282, st, w⟩ = Config.final ⟨.a284, st, { w with pam_sesopen := true }⟩ := by
  rw [final_step _ (by simp), step_a282]

theorem final_a284 (st : List Pc) (w : World) :
    Config.final ⟨.a284, st, w⟩
      = Config.final ⟨.a291, st, w.emit .send_msg_userauth_success⟩ := by
  rw [final_step _ (by simp), step_a284]

theorem final_a291_some (w : World) (p : List Nat) (h : w.password = some p) :
    Config.final ⟨.a291, [], w⟩ =
      { w with events := w.events ++ [.m_burn w.passwordlen, .m_free],
               password := some (m_burn p w.passwordlen) } := by
  rw [final_step _ (by simp), step_a291, h]
  simp only
  rw [final_step _ (by simp), step_a295]
  simp [ret, final_halt, World.emit]

theorem final_a291_none (w : World) (h : w.password = none) :
    Config.final ⟨.a291, [], w⟩ = w := by
  rw [final_step _ (by simp), step_a291, h]
  simp only
  rw [final_step _ (by simp), step_a295]
  simp [ret, final_halt]

theorem final_a288 (st : List Pc) (w : World) :
    Config.final ⟨.a288, st, w⟩ = Config.final ⟨.c300, .a291 :: st, w⟩ := by
  rw [final_step _ (by simp), step_a288]

theorem final_c300 (st : List Pc) (w : World) :
    Config.final ⟨.c300, st, w⟩ =
      if w.pam ≠ 0 then Config.final ⟨.c301, st, w⟩ else Config.final ⟨.c319, st, w⟩ := by
  rw [final_step _ (by simp), step_c300, final_ite]

theorem final_c301 (st : List Pc) (w : World) :
    Config.final ⟨.c301, st, w⟩ =
      if w.pam_sesopen then
        if (pamCall (.pam_close_session PAM_SILENT) w).1 ≠ PAM_SUCCESS then
          Config.final ⟨.c306, st, logFailed "pam_close_session() failed, rc=%d, %s"
            (pamCall (.pam_close_session PAM_SILENT) w).1
            (pamCall (.pam_close_session PAM_SILENT) w).2⟩
        else Config.final ⟨.c306, st, (pamCall (.pam_close_session PAM_SILENT) w).2⟩
      else Config.final ⟨.c308, st, w⟩ := by
  rw [final_step _ (by simp), step_c301, final_ite, final_ite]

theorem final_c306 (st : List Pc) (w : World) :
    Config.final ⟨.c306, st, w⟩ = Config.final ⟨.c308, st, { w with pam_sesopen := false }⟩ := by
  rw [final_step _ (by simp), step_c306]

theorem final_c308 (st : List Pc) (w : World) :
    Config.final ⟨.c308, st, w⟩ =
      if w.pam_credset then
        if (pamCall (.pam_setcred PAM_DELETE_CRED) w).1 ≠ PAM_SUCCESS then
          Config.final ⟨.c313, st, logFailed "pam_setcred() failed, rc=%d, %s"
            (pamCall (.pam_setcred PAM_DELETE_CRED) w).1
            (pamCall (.pam_setcred PAM_DELETE_CRED) w).2⟩
        else Config.final ⟨.c313, st, (pamCall (.pam_setcred PAM_DELETE_CRED) w).2⟩
      else Config.final ⟨.c317, st, w⟩ := by
  rw [final_step _ (by simp), step_c308, final_ite, final_ite]

theorem final_c313 (st : List Pc) (w : World) :
    Config.final ⟨.c313, st, w⟩ = Config.final ⟨.c317, st, { w with pam_credset := false }⟩ := by
  rw [final_step _ (by simp), step_c313]

theorem final_c317 (st : List Pc) (w : World) :
    Config.final ⟨.c317, st, w⟩ = Config.final ⟨.c319, st, (pamCall .pam_end w).2⟩ := by
  rw [final_step _ (by simp), step_c317]

theorem final_c319_nil (w : World) : Config.final ⟨.c319, [], w⟩ = w := by
  rw [final_step _ (by simp), step_c319]
  simp [ret, final_halt]

theorem final_c319_cons (r : Pc) (st : List Pc) (w : World) :
    Config.final ⟨.c319, r :: st, w⟩ = Config.final ⟨r, st, w⟩ := by
  rw [final_step _ (by simp), step_c319]
  rfl

/-- Closed form of one call of `svr_auth_pam_cleanup`. -/
theorem cleanup_eq (w : World) :
    svr_auth_pam_cleanup w =
      { w with
        pam_sesopen := if w.pam = 0 then w.pam_sesopen else false,
        pam_credset := if w.pam = 0 then w.pam_credset else false,
        ncalls := w.ncalls + cleanupCalls w.pam w.pam_sesopen w.pam_credset,
        events := w.events
          ++ cleanupEvents w.pam w.pam_sesopen w.pam_credset (rcAt w 0) (rcAt w 1) } := by
  rw [svr_auth_pam_cleanup_final]
  by_cases hp : w.pam = 0
  · cases w
    simp only at hp
    simp [final_c300, final_c319_nil, hp, cleanupEvents, cleanupCalls]
  · by_cases hs : w.pam_sesopen = true <;> by_cases hc : w.pam_credset = true <;>
      by_cases h1 : (w.pamlib w.ncalls).rc = PAM_SUCCESS <;>
      by_cases h2 : (w.pamlib (w.ncalls + 1)).rc = PAM_SUCCESS
    all_goals
      simp [final_c300, final_c301, final_c306, final_c308, final_c313, final_c317,
        final_c319_nil, hp, hs, hc, pamCall, h1, h2, logFailed, World.emit,
        cleanupEvents, cleanupCalls, rcAt, Nat.add_assoc]

/-- A call of `svr_auth_pam_cleanup` from a caller does what the function does
and continues at the return address. -/
theorem final_call_cleanup (r : Pc) (st : List Pc) (w : World) :
    Config.final ⟨.c300, r :: st, w⟩ = Config.final ⟨r, st, svr_auth_pam_cleanup w⟩ := by
  rw [svr_auth_pam_cleanup_final]
  by_cases hp : w.pam = 0
  · simp [final_c300, final_c319_nil, final_c319_cons, hp]
  · by_cases hs : w.pam_sesopen = true <;> by_cases hc : w.pam_credset = true <;>
      by_cases h1 : (w.pamlib w.ncalls).rc = PAM_SUCCESS <;>
      by_cases h2 : (w.pamlib (w.ncalls + 1)).rc = PAM_SUCCESS
    all_goals
      simp [final_c300, final_c301, final_c306, final_c308, final_c313, final_c317,
        final_c319_nil, final_c319_cons, hp, hs, hc, pamCall, h1, h2, logFailed, World.emit]

/-! ## Conversations: lemmas -/

theorem m_burn_length (p : List Nat) (n : Nat) : (m_burn p n).length = p.length := by
  simp [m_burn]
  omega

theorem m_burn_all (p : List Nat) : m_burn p p.length = List.replicate p.length 0 := by
  unfold m_burn
  rw [List.take_length, List.drop_length, List.append_nil, List.eq_replicate_iff]
  constructor
  · simp
  · intro b hb
    simp at hb
    exact hb.2

/-- What `pamConvFunc` can do to the password region: nothing, or the wipe. -/
theorem pamConvFunc_passwd (n : Int) (m : pam_message) (ud : UserDataS) :
    (pamConvFunc n m ud).userData.passwd = ud.passwd
    ∨ (pamConvFunc n m ud).userData.passwd = m_burn ud.passwd (strlen ud.passwd) := by
  simp only [pamConvFunc]
  split_ifs <;> simp

theorem pamConvFunc_passwd_length (n : Int) (m : pam_message) (ud : UserDataS) :
    (pamConvFunc n m ud).userData.passwd.length = ud.passwd.length := by
  rcases pamConvFunc_passwd n m ud with h | h <;> rw [h]
  exact m_burn_length _ _

theorem convPasswd_length (cs : List ConvCall) (u p : List Nat) :
    (convPasswd cs u p).length = p.length := by
  induction cs generalizing p with
  | nil => rfl
  | cons c cs ih =>
    rw [convPasswd, ih]
    exact pamConvFunc_passwd_length _ _ _

/-- Closed form of the conversation calls of one PAM library call. -/
theorem converse_eq (cs : List ConvCall) (w : World) :
    converse cs w =
      { w with
        password := w.password.map (fun p => convPasswd cs w.username p),
        events := w.events ++ convTrace cs w.username (w.password.getD []) } := by
  induction cs generalizing w with
  | nil => cases w; simp [converse, convPasswd, convTrace]
  | cons c cs ih =>
    rw [converse, ih]
    cases hp : w.password with
    | none =>
      have h0 : (pamConvFunc c.num_msg c.msg { user := w.username, passwd := [] }
          ).userData.passwd = [] := by
        have := pamConvFunc_passwd_length c.num_msg c.msg { user := w.username, passwd := [] }
        simpa using this
      simp [convTrace, h0]
    | some p => simp [convTrace, convPasswd]

theorem pamModuleCall_fst (op : PamOp) (w : World) :
    (pamModuleCall op w).1 = (w.pamlib w.ncalls).rc := rfl

theorem pamModuleCall_snd (op : PamOp) (w : World) :
    (pamModuleCall op w).2 =
      { w with
        ncalls := w.ncalls + 1,
        password := w.password.map
          (fun p => convPasswd (w.pamlib w.ncalls).conv w.username p),
        events := w.events ++ Event.pam op w.pam ::
          convTrace (w.pamlib w.ncalls).conv w.username (w.password.getD []) } := by
  unfold pamModuleCall
  rw [converse_eq]
  simp

theorem pamCall_fst (op : PamOp) (w : World) :
    (pamCall op w).1 = (w.pamlib w.ncalls).rc := rfl

theorem pamCall_snd (op : PamOp) (w : World) :
    (pamCall op w).2 =
      { w with ncalls := w.ncalls + 1, events := w.events ++ [.pam op w.pam] } := rfl

theorem peerMsgs_append (a b : List Event) : peerMsgs (a ++ b) = peerMsgs a ++ peerMsgs b := by
  induction a with
  | nil => rfl
  | cons e es ih => cases e <;> simp [peerMsgs, ih]

theorem logsOf_append (a b : List Event) : logsOf (a ++ b) = logsOf a ++ logsOf b := by
  induction a with
  | nil => rfl
  | cons e es ih => cases e <;> simp [logsOf, ih]

theorem wipes_append (a b : List Event) : wipes (a ++ b) = wipes a ++ wipes b := by
  induction a with
  | nil => rfl
  | cons e es ih => cases e <;> simp [wipes, ih]

/-- The events of one `pamConvFunc` call are log lines, banners and wipes:
no PAM library call, no response to the peer, no `m_free`. -/
theorem pamConvFunc_events (n : Int) (m : pam_message) (ud : UserDataS) :
    pamOps (pamConvFunc n m ud).events = []
    ∧ peerMsgs (pamConvFunc n m ud).events = []
    ∧ Event.m_free ∉ (pamConvFunc n m ud).events := by
  simp only [pamConvFunc]
  split_ifs <;> simp [pamOps, peerMsgs]

theorem convTrace_views (cs : List ConvCall) (u p : List Nat) :
    pamOps (convTrace cs u p) = []
    ∧ peerMsgs (convTrace cs u p) = []
    ∧ Event.m_free ∉ convTrace cs u p := by
  induction cs generalizing p with
  | nil => simp [convTrace, pamOps, peerMsgs]
  | cons c cs ih =>
    obtain ⟨h1, h2, h3⟩ := pamConvFunc_events c.num_msg c.msg { user := u, passwd := p }
    obtain ⟨i1, i2, i3⟩ := ih
      (pamConvFunc c.num_msg c.msg { user := u, passwd := p }).userData.passwd
    simp [convTrace, pamOps_append, peerMsgs_append, h1, h2, h3, i1, i2, i3]

/-- The log lines of one `pamConvFunc` call do not depend on the credential
context. -/
theorem pamConvFunc_logs (n : Int) (m : pam_message) (ud ud2 : UserDataS) :
    logsOf (pamConvFunc n m ud).events = logsOf (pamConvFunc n m ud2).events := by
  simp only [pamConvFunc]
  split_ifs <;> simp [logsOf]

theorem convTrace_logs (cs : List ConvCall) (u p u2 p2 : List Nat) :
    logsOf (convTrace cs u p) = logsOf (convTrace cs u2 p2) := by
  induction cs generalizing p p2 with
  | nil => rfl
  | cons c cs ih =>
    simp only [convTrace, logsOf_append]
    rw [pamConvFunc_logs c.num_msg c.msg { user := u, passwd := p } { user := u2, passwd := p2 },
      ih]

/-- Finalization (lines 290-295) in closed form. -/
theorem final_a291 (w : World) :
    Config.final ⟨.a291, [], w⟩ =
      { w with
        events := w.events ++
          (if w.password.isSome then [.m_burn w.passwordlen, .m_free] else []),
        password := w.password.map (fun p => m_burn p w.passwordlen) } := by
  cases h : w.password with
  | none =>
    rw [final_a291_none w h]
    cases w
    simp_all
  | some p =>
    rw [final_a291_some w p h]
    simp

/-- The failure exit (label `cleanup:`) in closed form. -/
theorem final_a288_nil (w : World) :
    Config.final ⟨.a288, [], w⟩ =
      { w with
        pam_sesopen := if w.pam = 0 then w.pam_sesopen else false,
        pam_credset := if w.pam = 0 then w.pam_credset else false,
        ncalls := w.ncalls + cleanupCalls w.pam w.pam_sesopen w.pam_credset,
        events := w.events
          ++ cleanupEvents w.pam w.pam_sesopen w.pam_credset (rcAt w 0) (rcAt w 1)
          ++ (if w.password.isSome then [.m_burn w.passwordlen, .m_free] else []),
        password := w.password.map (fun p => m_burn p w.passwordlen) } := by
  rw [final_a288, final_call_cleanup, final_a291, cleanup_eq]

/-! ## Runs in normal form: lemmas -/

theorem upd_self (w : World) :
    w.upd w.pam w.pam_credset w.pam_sesopen w.password w.passwordlen 0 [] = w := by
  cases w
  simp [World.upd]

section
variable (w : World) (h : Nat) (c s : Bool) (pw : Option (List Nat)) (len k : Nat)
  (tr : List Event) (st : List Pc)

theorem exec_a183 :
    Config.final ⟨.a183, st, w.upd h c s pw len k tr⟩
      = Config.final ⟨.a196, st, w.upd h c s none len k tr⟩ := by
  rw [final_a183]; rfl

theorem exec_a196 :
    Config.final ⟨.a196, st, w.upd h c s pw len k tr⟩ =
      if w.req.changepw then
        Config.final ⟨.a288, st,
          w.upd h c s pw len k (tr ++ [.buf_getbool, .send_msg_userauth_failure 0 1])⟩
      else Config.final ⟨.a203, st, w.upd h c s pw len k (tr ++ [.buf_getbool])⟩ := by
  rw [final_a196]
  simp [World.upd, World.emit]

theorem exec_a203 :
    Config.final ⟨.a203, st, w.upd h c s pw len k tr⟩ =
      Config.final ⟨.a212, st,
        w.upd h c s (some w.req.password) w.req.password.length k (tr ++ [.buf_getstring])⟩ := by
  rw [final_a203]
  simp [World.upd, World.emit]

theorem exec_a212 :
    Config.final ⟨.a212, st, w.upd h c s pw len k tr⟩ =
      if rcAt w k ≠ PAM_SUCCESS then
        Config.final ⟨.a288, st, w.upd (pamhAt w k) c s pw len (k + 1)
          (tr ++ [.pam .pam_start (pamhAt w k),
            .dropbear_log LOG_WARNING "pam_start() failed, rc=%d, %s"
              [.int (rcAt w k), .pam_strerror (rcAt w k)]])⟩
      else
        Config.final ⟨.a218, st, w.upd (pamhAt w k) c s pw len (k + 1)
          (tr ++ [.pam .pam_start (pamhAt w k)])⟩ := by
  rw [final_a212]
  simp [World.upd, World.emit, logFailed, rcAt, pamhAt, Nat.add_assoc]

theorem exec_a218 :
    Config.final ⟨.a218, st, w.upd h c s pw len k tr⟩ =
      if rcAt w k ≠ PAM_SUCCESS then
        Config.final ⟨.a288, st, w.upd h c s pw len (k + 1)
          (tr ++ [.pam (.pam_set_item PAM_RHOST) h,
            .dropbear_log LOG_WARNING "pam_set_item(PAM_RHOST) failed, rc=%d, %s"
              [.int (rcAt w k), .pam_strerror (rcAt w k)]])⟩
      else
        Config.final ⟨.a225, st, w.upd h c s pw len (k + 1)
          (tr ++ [.pam (.pam_set_item PAM_RHOST) h])⟩ := by
  rw [final_a218]
  simp [World.upd, World.emit, logFailed, rcAt, pamCall, Nat.add_assoc]

theorem exec_a225 :
    Config.final ⟨.a225, st, w.upd h c s pw len k tr⟩ =
      if rcAt w k ≠ PAM_SUCCESS then
        Config.final ⟨.a288, st, w.upd h c s pw len (k + 1)
          (tr ++ [.pam (.pam_set_item PAM_TTY) h,
            .dropbear_log LOG_WARNING "pam_set_item() failed, rc=%d, %s"
              [.int 1, .pam_strerror 1]])⟩
      else
        Config.final ⟨.a233, st, w.upd h c s pw len (k + 1)
          (tr ++ [.pam (.pam_set_item PAM_TTY) h])⟩ := by
  rw [final_a225]
  simp [World.upd, World.emit, logFailed, rcAt, pamCall, Nat.add_assoc]

theorem exec_a233 :
    Config.final ⟨.a233, st, w.upd h c s pw len k tr⟩ =
      if w.have_pam_fail_delay then
        Config.final ⟨.a238, st, w.upd h c s pw len (k + 1) (tr ++ [.pam .pam_fail_delay h])⟩
      else Config.final ⟨.a238, st, w.upd h c s pw len k tr⟩ := by
  rw [final_a233]
  simp [World.upd, pamCall, Nat.add_assoc]

theorem upd_moduleCall (op : PamOp) :
    (pamModuleCall op (w.upd h c s pw len k tr)).2 =
      w.upd h c s (pw.map (fun p => convPasswd (convAt w k) w.username p)) len (k + 1)
        (tr ++ Event.pam op h :: convTrace (convAt w k) w.username (pw.getD [])) := by
  rw [pamModuleCall_snd]
  simp [World.upd, convAt, Nat.add_assoc]

theorem upd_moduleCall_rc (op : PamOp) :
    (pamModuleCall op (w.upd h c s pw len k tr)).1 = rcAt w k := rfl

theorem exec_a238 :
    Config.final ⟨.a238, st, w.upd h c s pw len k tr⟩ =
      if rcAt w k ≠ PAM_SUCCESS then
        Config.final ⟨.a288, st,
          w.upd h c s (pw.map (fun p => convPasswd (convAt w k) w.username p)) len (k + 1)
            (tr ++ Event.pam .pam_authenticate h ::
              convTrace (convAt w k) w.username (pw.getD []) ++
              [.dropbear_log LOG_WARNING "pam_authenticate() failed, rc=%d, %s"
                [.int (rcAt w k), .pam_strerror (rcAt w k)],
               badAttemptLog w, .send_msg_userauth_failure 0 1])⟩
      else
        Config.final ⟨.a249, st,
          w.upd h c s (pw.map (fun p => convPasswd (convAt w k) w.username p)) len (k + 1)
            (tr ++ Event.pam .pam_authenticate h ::
              convTrace (convAt w k) w.username (pw.getD []))⟩ := by
  rw [final_a238, upd_moduleCall, upd_moduleCall_rc]
  simp [World.upd, World.emit, logFailed, logBadAttempt, badAttemptLog]

theorem exec_a263 :
    Config.final ⟨.a263, st, w.upd h c s pw len k tr⟩ =
      if rcAt w k ≠ PAM_SUCCESS then
        Config.final ⟨.a288, st,
          w.upd h c s (pw.map (fun p => convPasswd (convAt w k) w.username p)) len (k + 1)
            (tr ++ Event.pam (.pam_setcred PAM_ESTABLISH_CRED) h ::
              convTrace (convAt w k) w.username (pw.getD []) ++
              [.dropbear_log LOG_WARNING "pam_setcred() failed, rc=%d, %s"
                [.int (rcAt w k), .pam_strerror (rcAt w k)],
               .send_msg_userauth_failure 0 1])⟩
      else
        Config.final ⟨.a269, st,
          w.upd h c s (pw.map (fun p => convPasswd (convAt w k) w.username p)) len (k + 1)
            (tr ++ Event.pam (.pam_setcred PAM_ESTABLISH_CRED) h ::
              convTrace (convAt w k) w.username (pw.getD []))⟩ := by
  rw [final_a263, upd_moduleCall, upd_moduleCall_rc]
  simp [World.upd, World.emit, logFailed]

theorem exec_a269 :
    Config.final ⟨.a269, st, w.upd h c s pw len k tr⟩
      = Config.final ⟨.a272, st, w.upd h true s pw len k tr⟩ := by
  rw [final_a269]; rfl

theorem exec_a272 :
    Config.final ⟨.a272, st, w.upd h c s pw len k tr⟩
      = Config.final ⟨.a276, st, w.upd h c s pw len k (tr ++ [successLog w])⟩ := by
  rw [final_a272]
  simp [World.upd, World.emit, successLog]

theorem exec_a276 :
    Config.final ⟨.a276, st, w.upd h c s pw len k tr⟩ =
      if rcAt w k ≠ PAM_SUCCESS then
        Config.final ⟨.a288, st,
          w.upd h c s (pw.map (fun p => convPasswd (convAt w k) w.username p)) len (k + 1)
            (tr ++ Event.pam .pam_open_session h ::
              convTrace (convAt w k) w.username (pw.getD []) ++
              [.dropbear_log LOG_WARNING "pam_open_session() failed, rc=%d, %s"
                [.int (rcAt w k), .pam_strerror (rcAt w k)],
               .send_msg_userauth_failure 0 1])⟩
      else
        Config.final ⟨.a282, st,
          w.upd h c s (pw.map (fun p => convPasswd (convAt w k) w.username p)) len (k + 1)
            (tr ++ Event.pam .pam_open_session h ::
              convTrace (convAt w k) w.username (pw.getD []))⟩ := by
  rw [final_a276, upd_moduleCall, upd_moduleCall_rc]
  simp [World.upd, World.emit, logFailed]

theorem exec_a282 :
    Config.final ⟨.a282, st, w.upd h c s pw len k tr⟩
      = Config.final ⟨.a284, st, w.upd h c true pw len k tr⟩ := by
  rw [final_a282]; rfl

theorem exec_a284 :
    Config.final ⟨.a284, st, w.upd h c s pw len k tr⟩
      = Config.final ⟨.a291, st, w.upd h c s pw len k (tr ++ [.send_msg_userauth_success])⟩ := by
  rw [final_a284]
  simp [World.upd, World.emit]

theorem exec_a291 :
    Config.final ⟨.a291, [], w.upd h c s pw len k tr⟩ =
      w.upd h c s (pw.map (fun p => m_burn p len)) len k
        (tr ++ (if pw.isSome then [.m_burn len, .m_free] else [])) := by
  rw [final_a291]
  simp [World.upd]

theorem exec_a249 :
    Config.final ⟨.a249, st, w.upd h c s pw len k tr⟩ =
      if rcAt w k = PAM_NEW_AUTHTOK_REQD then
        if rcAt w (k + 1) ≠ PAM_SUCCESS then
          Config.final ⟨.a288, st,
            w.upd h c s
              ((pw.map (fun p => convPasswd (convAt w k) w.username p)).map
                (fun p => convPasswd (convAt w (k + 1)) w.username p)) len (k + 1 + 1)
              (tr ++ Event.pam .pam_acct_mgmt h ::
                convTrace (convAt w k) w.username (pw.getD []) ++
                Event.pam (.pam_chauthtok PAM_CHANGE_EXPIRED_AUTHTOK) h ::
                convTrace (convAt w (k + 1)) w.username
                  ((pw.map (fun p => convPasswd (convAt w k) w.username p)).getD []) ++
                [.dropbear_log LOG_WARNING "pam_acct_mgmt() failed, rc=%d, %s"
                  [.int (rcAt w (k + 1)), .pam_strerror (rcAt w (k + 1))],
                 badAttemptLog w, .send_msg_userauth_failure 0 1])⟩
        else
          Config.final ⟨.a263, st,
            w.upd h c s
              ((pw.map (fun p => convPasswd (convAt w k) w.username p)).map
                (fun p => convPasswd (convAt w (k + 1)) w.username p)) len (k + 1 + 1)
              (tr ++ Event.pam .pam_acct_mgmt h ::
                convTrace (convAt w k) w.username (pw.getD []) ++
                Event.pam (.pam_chauthtok PAM_CHANGE_EXPIRED_AUTHTOK) h ::
                convTrace (convAt w (k + 1)) w.username
                  ((pw.map (fun p => convPasswd (convAt w k) w.username p)).getD []))⟩
      else
        if rcAt w k ≠ PAM_SUCCESS then
          Config.final ⟨.a288, st,
            w.upd h c s (pw.map (fun p => convPasswd (convAt w k) w.username p)) len (k + 1)
              (tr ++ Event.pam .pam_acct_mgmt h ::
                convTrace (convAt w k) w.username (pw.getD []) ++
                [.dropbear_log LOG_WARNING "pam_acct_mgmt() failed, rc=%d, %s"
                  [.int (rcAt w k), .pam_strerror (rcAt w k)],
                 badAttemptLog w, .send_msg_userauth_failure 0 1])⟩
        else
          Config.final ⟨.a263, st,
            w.upd h c s (pw.map (fun p => convPasswd (convAt w k) w.username p)) len (k + 1)
              (tr ++ Event.pam .pam_acct_mgmt h ::
                convTrace (convAt w k) w.username (pw.getD []))⟩ := by
  rw [final_a249]
  simp only [upd_moduleCall, upd_moduleCall_rc]
  simp [World.upd, World.emit, logFailed, logBadAttempt, badAttemptLog]

end

/-- The run of `svr_auth_pam`, started in normal form. -/
theorem svr_auth_pam_exec (w : World) :
    svr_auth_pam w = Config.final ⟨.a183, [],
      w.upd w.pam w.pam_credset w.pam_sesopen w.password w.passwordlen 0 []⟩ := by
  rw [upd_self, svr_auth_pam_final]

theorem exec_fail (w : World) (h : Nat) (c s : Bool) (pw : Option (List Nat)) (len k : Nat)
    (tr : List Event) :
    Config.final ⟨.a288, [], w.upd h c s pw len k tr⟩ =
      w.upd h (if h = 0 then c else false) (if h = 0 then s else false)
        (pw.map (fun p => m_burn p len)) len
        (k + cleanupCalls h s c)
        (tr ++ cleanupEvents h s c (rcAt w k) (rcAt w (k + 1))
          ++ (if pw.isSome then [.m_burn len, .m_free] else [])) := by
  rw [final_a288_nil]
  simp [World.upd, rcAt, Nat.add_assoc]

section
variable (w : World) (h : Nat) (c s : Bool) (pw : Option (List Nat)) (len k : Nat)
  (tr : List Event)

theorem upd_pam : (w.upd h c s pw len k tr).pam = h := rfl
theorem upd_credset : (w.upd h c s pw len k tr).pam_credset = c := rfl
theorem upd_sesopen : (w.upd h c s pw len k tr).pam_sesopen = s := rfl
theorem upd_password : (w.upd h c s pw len k tr).password = pw := rfl
theorem upd_passwordlen : (w.upd h c s pw len k tr).passwordlen = len := rfl
theorem upd_ncalls : (w.upd h c s pw len k tr).ncalls = w.ncalls + k := rfl
theorem upd_events : (w.upd h c s pw len k tr).events = w.events ++ tr := rfl
theorem upd_newEvents : newEvents w (w.upd h c s pw len k tr) = tr := by
  simp [newEvents, World.upd]

end

/-- The ways a run can go, with the outcome of each: an exhaustive case
distinction on the request and on the result codes of the PAM library. -/
theorem outcome_cases (w : World) :
    (w.req.changepw = true ∧ outcome w = .Failed .Unimplemented)
    ∨ (w.req.changepw = false ∧ rcAt w 0 ≠ PAM_SUCCESS ∧ outcome w = .Failed .Setup)
    ∨ (w.req.changepw = false ∧ rcAt w 0 = PAM_SUCCESS ∧ rcAt w 1 ≠ PAM_SUCCESS
        ∧ outcome w = .Failed .Setup)
    ∨ (w.req.changepw = false ∧ rcAt w 0 = PAM_SUCCESS ∧ rcAt w 1 = PAM_SUCCESS
        ∧ rcAt w 2 ≠ PAM_SUCCESS ∧ outcome w = .Failed .Setup)
    ∨ (w.req.changepw = false ∧ rcAt w 0 = PAM_SUCCESS ∧ rcAt w 1 = PAM_SUCCESS
        ∧ rcAt w 2 = PAM_SUCCESS
        ∧ ((rcAt w (authAt w) ≠ PAM_SUCCESS ∧ outcome w = .Failed .Authenticate)
          ∨ (rcAt w (authAt w) = PAM_SUCCESS
            ∧ ((newTokReqd w = false
                ∧ ((rcAt w (authAt w + 1) ≠ PAM_SUCCESS ∧ outcome w = .Failed .AccountMgmt)
                  ∨ (rcAt w (authAt w + 1) = PAM_SUCCESS
                    ∧ ((rcAt w (authAt w + 2) ≠ PAM_SUCCESS ∧ outcome w = .Failed .SetCred)
                      ∨ (rcAt w (authAt w + 2) = PAM_SUCCESS
                        ∧ ((rcAt w (authAt w + 3) ≠ PAM_SUCCESS
                            ∧ outcome w = .Failed .OpenSession)
                          ∨ (rcAt w (authAt w + 3) = PAM_SUCCESS
                            ∧ outcome w = .Success)))))))
              ∨ (newTokReqd w = true
                ∧ ((rcAt w (authAt w + 2) ≠ PAM_SUCCESS ∧ outcome w = .Failed .AccountMgmt)
                  ∨ (rcAt w (authAt w + 2) = PAM_SUCCESS
                    ∧ ((rcAt w (authAt w + 3) ≠ PAM_SUCCESS ∧ outcome w = .Failed .SetCred)
                      ∨ (rcAt w (authAt w + 3) = PAM_SUCCESS
                        ∧ ((rcAt w (authAt w + 4) ≠ PAM_SUCCESS
                            ∧ outcome w = .Failed .OpenSession)
                          ∨ (rcAt w (authAt w + 4) = PAM_SUCCESS
                            ∧ outcome w = .Success))))))))))) := by
  unfold outcome acctRc credAt
  by_cases h : w.req.changepw = true
  · simp [h]
  · simp only [h, Bool.false_eq_true, if_false, false_and, false_or]
    by_cases h0 : rcAt w 0 = PAM_SUCCESS
    · by_cases h1 : rcAt w 1 = PAM_SUCCESS
      · by_cases h2 : rcAt w 2 = PAM_SUCCESS
        · by_cases h3 : rcAt w (authAt w) = PAM_SUCCESS
          · cases hn : newTokReqd w
            · by_cases h4 : rcAt w (authAt w + 1) = PAM_SUCCESS
              · by_cases h5 : rcAt w (authAt w + 2) = PAM_SUCCESS
                · by_cases h6 : rcAt w (authAt w + 3) = PAM_SUCCESS <;>
                    simp_all
                · simp_all
              · simp_all
            · by_cases h4 : rcAt w (authAt w + 2) = PAM_SUCCESS
              · by_cases h5 : rcAt w (authAt w + 3) = PAM_SUCCESS
                · by_cases h6 : rcAt w (authAt w + 4) = PAM_SUCCESS <;>
                    simp_all [Nat.add_assoc]
                · simp_all
              · simp_all
          · simp_all
        · simp_all
      · simp_all
    · simp_all

theorem cleanupEvents_views (h : Nat) (ses cred : Bool) (r0 r1 : Int) :
    peerMsgs (cleanupEvents h ses cred r0 r1) = []
    ∧ wipes (cleanupEvents h ses cred r0 r1) = []
    ∧ pamOps (cleanupEvents h ses cred r0 r1) =
        (if h = 0 then []
         else (if ses then [PamOp.pam_close_session PAM_SILENT] else [])
          ++ (if cred then [PamOp.pam_setcred PAM_DELETE_CRED] else [])
          ++ [PamOp.pam_end]) := by
  unfold cleanupEvents
  by_cases h0 : h = 0
  · simp [h0, peerMsgs, wipes, pamOps]
  · cases ses <;> cases cred <;>
      by_cases e0 : r0 = PAM_SUCCESS <;> by_cases e1 : r1 = PAM_SUCCESS <;>
      simp [h0, e0, e1, peerMsgs, wipes, pamOps]

theorem mem_logsOf (e : Event) (es : List Event) : e ∈ logsOf es → e ∈ es := by
  induction es with
  | nil => simp [logsOf]
  | cons x xs ih =>
    cases x <;> simp [logsOf] <;> intro hx
    all_goals first
      | exact Or.inr (ih hx)
      | (rcases hx with hx | hx
         · exact Or.inl hx
         · exact Or.inr (ih hx))

theorem mem_wipes (e : Event) (es : List Event) : e ∈ wipes es → e ∈ es := by
  induction es with
  | nil => simp [wipes]
  | cons x xs ih =>
    cases x <;> simp [wipes] <;> intro hx
    all_goals first
      | exact Or.inr (ih hx)
      | (rcases hx with hx | hx
         · exact Or.inl hx
         · exact Or.inr (ih hx))

/-- The events of `svr_auth_pam_cleanup`: PAM calls on the handle and warnings. -/
theorem cleanupEvents_logs (h : Nat) (ses cred : Bool) (r0 r1 : Int) :
    ∀ e ∈ cleanupEvents h ses cred r0 r1,
      (∃ op, e = .pam op h) ∨ (∃ f a, e = .dropbear_log LOG_WARNING f a) := by
  unfold cleanupEvents
  by_cases h0 : h = 0
  · simp [h0]
  · cases ses <;> cases cred <;>
      by_cases e0 : r0 = PAM_SUCCESS <;> by_cases e1 : r1 = PAM_SUCCESS <;>
      simp [h0, e0, e1]

/-- The events of `pamConvFunc`: its three log lines, a banner, or a wipe. -/
theorem pamConvFunc_kinds (n : Int) (m : pam_message) (ud : UserDataS) (e : Event)
    (he : e ∈ (pamConvFunc n m ud).events) :
    (∃ a, e = .dropbear_log LOG_INFO
        "pamConvFunc() called with >1 messages: not supported." a)
    ∨ (∃ a, e = .dropbear_log LOG_NOTICE "PAM unknown prompt '%s' (no echo)" a)
    ∨ (∃ a, e = .dropbear_log LOG_NOTICE "PAM unknown prompt '%s' (with echo)" a)
    ∨ (∃ b, e = .send_msg_userauth_banner b)
    ∨ (∃ k, e = .m_burn k) := by
  simp only [pamConvFunc] at he
  split_ifs at he <;> simp at he <;> subst he <;> simp

theorem convTrace_kinds (cs : List ConvCall) (u p : List Nat) (e : Event)
    (he : e ∈ convTrace cs u p) :
    (∃ a, e = .dropbear_log LOG_INFO
        "pamConvFunc() called with >1 messages: not supported." a)
    ∨ (∃ a, e = .dropbear_log LOG_NOTICE "PAM unknown prompt '%s' (no echo)" a)
    ∨ (∃ a, e = .dropbear_log LOG_NOTICE "PAM unknown prompt '%s' (with echo)" a)
    ∨ (∃ b, e = .send_msg_userauth_banner b)
    ∨ (∃ k, e = .m_burn k) := by
  induction cs generalizing p with
  | nil => simp [convTrace] at he
  | cons c cs ih =>
    simp only [convTrace, List.mem_append] at he
    rcases he with he | he
    · exact pamConvFunc_kinds _ _ _ _ he
    · exact ih _ he

theorem successLog_not_mem_convTrace (w : World) (cs : List ConvCall) (u p : List Nat) :
    successLog w ∉ convTrace cs u p := by
  intro he
  rcases convTrace_kinds cs u p _ he with ⟨a, h⟩ | ⟨a, h⟩ | ⟨a, h⟩ | ⟨b, h⟩ | ⟨k, h⟩ <;>
    simp [successLog, LOG_NOTICE, LOG_INFO] at h

theorem successLog_not_mem_cleanupEvents (w : World) (h : Nat) (ses cred : Bool)
    (r0 r1 : Int) : successLog w ∉ cleanupEvents h ses cred r0 r1 := by
  intro he
  rcases cleanupEvents_logs h ses cred r0 r1 _ he with ⟨op, h⟩ | ⟨f, a, h⟩ <;>
    simp [successLog, LOG_NOTICE, LOG_WARNING] at h

theorem m_free_not_mem_cleanupEvents (h : Nat) (ses cred : Bool) (r0 r1 : Int) :
    Event.m_free ∉ cleanupEvents h ses cred r0 r1 := by
  intro he
  rcases cleanupEvents_logs h ses cred r0 r1 _ he with ⟨op, h⟩ | ⟨f, a, h⟩ <;> simp at h

theorem m_free_not_mem_convTrace (cs : List ConvCall) (u p : List Nat) :
    Event.m_free ∉ convTrace cs u p := (convTrace_views cs u p).2.2

theorem peerMsgs_convTrace (cs : List ConvCall) (u p : List Nat) :
    peerMsgs (convTrace cs u p) = [] := (convTrace_views cs u p).2.1

theorem pamOps_convTrace (cs : List ConvCall) (u p : List Nat) :
    pamOps (convTrace cs u p) = [] := (convTrace_views cs u p).1

theorem peerMsgs_cleanupEvents (h : Nat) (ses cred : Bool) (r0 r1 : Int) :
    peerMsgs (cleanupEvents h ses cred r0 r1) = [] := (cleanupEvents_views h ses cred r0 r1).1

theorem pamOps_cleanupEvents (h : Nat) (ses cred : Bool) (r0 r1 : Int) :
    pamOps (cleanupEvents h ses cred r0 r1) =
      (if h = 0 then []
       else (if ses then [PamOp.pam_close_session PAM_SILENT] else [])
        ++ (if cred then [PamOp.pam_setcred PAM_DELETE_CRED] else [])
        ++ [PamOp.pam_end]) := (cleanupEvents_views h ses cred r0 r1).2.2

/-- The responses a run sends to the peer, by outcome: the success message,
one failure message with `partial = 0` and `incrfail = 1`, or, when setup
fails, nothing. -/
theorem run_peerMsgs (w : World) :
    peerMsgs (newEvents w (svr_auth_pam w)) =
      (if outcome w = .Success then [.send_msg_userauth_success]
       else if outcome w = .Failed .Setup then []
       else [.send_msg_userauth_failure 0 1]) := by
  rw [svr_auth_pam_exec]
  simp only [exec_a183, exec_a196, exec_a203, exec_a212, exec_a218, exec_a225,
    exec_a233, exec_a238, exec_a249, exec_a263, exec_a269, exec_a272, exec_a276,
    exec_a282, exec_a284, exec_a291, exec_fail]
  simp only [apply_ite (newEvents w), apply_ite peerMsgs, upd_newEvents, peerMsgs_append,
    peerMsgs_convTrace, peerMsgs_cleanupEvents, Nat.zero_add, Nat.reduceAdd]
  rcases outcome_cases w with
    ⟨hch, ho⟩ | ⟨hch, h0, ho⟩ | ⟨hch, h0, h1, ho⟩ | ⟨hch, h0, h1, h2, ho⟩
    | ⟨hch, h0, h1, h2, ⟨h3, ho⟩ | ⟨h3,
        ⟨hn, ⟨h4, ho⟩ | ⟨h4, ⟨h5, ho⟩ | ⟨h5, ⟨h6, ho⟩ | ⟨h6, ho⟩⟩⟩⟩
        | ⟨hn, ⟨h4, ho⟩ | ⟨h4, ⟨h5, ho⟩ | ⟨h5, ⟨h6, ho⟩ | ⟨h6, ho⟩⟩⟩⟩⟩⟩
  all_goals
    by_cases hd : w.have_pam_fail_delay = true <;>
      simp_all [authAt, newTokReqd, peerMsgs, badAttemptLog, successLog, peerMsgs_append,
        peerMsgs_convTrace, peerMsgs_cleanupEvents]

theorem m_burn_of_length (p : List Nat) (n : Nat) (h : p.length = n) :
    m_burn p n = List.replicate n 0 := by
  subst h
  exact m_burn_all p

/-- The PAM library calls of a run for a request without "change password",
started with both flags clear: the calls of the pipeline up to the first one
that fails, then the rollback (delete the credentials when the failure is at
session open, end the transaction; nothing when the handle is NULL). -/
theorem run_pamOps (w : World) (hch : w.req.changepw = false)
    (hc : w.pam_credset = false) (hs : w.pam_sesopen = false) :
    pamOps (newEvents w (svr_auth_pam w)) =
      if outcome w = .Success then pipelineOps w
      else (pipelineOps w).take (failPos w + 1)
        ++ (if pamhAt w 0 = 0 then []
            else (if outcome w = .Failed .OpenSession
                  then [PamOp.pam_setcred PAM_DELETE_CRED] else [])
              ++ [PamOp.pam_end]) := by
  rw [svr_auth_pam_exec]
  simp only [exec_a183, exec_a196, exec_a203, exec_a212, exec_a218, exec_a225,
    exec_a233, exec_a238, exec_a249, exec_a263, exec_a269, exec_a272, exec_a276,
    exec_a282, exec_a284, exec_a291, exec_fail]
  simp only [apply_ite (newEvents w), apply_ite pamOps, upd_newEvents, hc, hs,
    Nat.zero_add, Nat.reduceAdd, pamOps_append, pamOps_convTrace, pamOps_cleanupEvents,
    pamOps, badAttemptLog, successLog, List.nil_append, List.append_nil, List.cons_append,
    List.append_assoc, Bool.false_eq_true, if_false]
  rcases outcome_cases w with
    ⟨hch, ho⟩ | ⟨hch, h0, ho⟩ | ⟨hch, h0, h1, ho⟩ | ⟨hch, h0, h1, h2, ho⟩
    | ⟨hch, h0, h1, h2, ⟨h3, ho⟩ | ⟨h3,
        ⟨hn, ⟨h4, ho⟩ | ⟨h4, ⟨h5, ho⟩ | ⟨h5, ⟨h6, ho⟩ | ⟨h6, ho⟩⟩⟩⟩
        | ⟨hn, ⟨h4, ho⟩ | ⟨h4, ⟨h5, ho⟩ | ⟨h5, ⟨h6, ho⟩ | ⟨h6, ho⟩⟩⟩⟩⟩⟩
  all_goals
    by_cases hd : w.have_pam_fail_delay = true <;> cases hq : newTokReqd w <;>
      by_cases hp : pamhAt w 0 = 0 <;>
      simp_all [authAt, failPos, pipelineOps, acctRc, credAt, newTokReqd]

/-- The two flags on return from a run started with both flags clear, when a
successful `pam_start` stores a handle that is not NULL: both set exactly when
the outcome is `Success`. -/
theorem run_flags (w : World)
    (hc : w.pam_credset = false) (hs : w.pam_sesopen = false)
    (hh : rcAt w 0 = PAM_SUCCESS → pamhAt w 0 ≠ 0) :
    (svr_auth_pam w).pam_credset = (if outcome w = .Success then true else false)
    ∧ (svr_auth_pam w).pam_sesopen = (if outcome w = .Success then true else false) := by
  rw [svr_auth_pam_exec]
  simp only [exec_a183, exec_a196, exec_a203, exec_a212, exec_a218, exec_a225,
    exec_a233, exec_a238, exec_a249, exec_a263, exec_a269, exec_a272, exec_a276,
    exec_a282, exec_a284, exec_a291, exec_fail]
  simp only [apply_ite World.pam_credset, apply_ite World.pam_sesopen,
    upd_credset, upd_sesopen, hc, hs, Nat.zero_add, Nat.reduceAdd]
  rcases outcome_cases w with
    ⟨hch, ho⟩ | ⟨hch, h0, ho⟩ | ⟨hch, h0, h1, ho⟩ | ⟨hch, h0, h1, h2, ho⟩
    | ⟨hch, h0, h1, h2, ⟨h3, ho⟩ | ⟨h3,
        ⟨hn, ⟨h4, ho⟩ | ⟨h4, ⟨h5, ho⟩ | ⟨h5, ⟨h6, ho⟩ | ⟨h6, ho⟩⟩⟩⟩
        | ⟨hn, ⟨h4, ho⟩ | ⟨h4, ⟨h5, ho⟩ | ⟨h5, ⟨h6, ho⟩ | ⟨h6, ho⟩⟩⟩⟩⟩⟩
  all_goals
    by_cases hd : w.have_pam_fail_delay = true <;>
      simp_all [authAt, newTokReqd]

/-- The password region on return from a run for a request without "change
password": every byte of the `passwordlen` bytes is zero. -/
theorem run_password (w : World) (hch : w.req.changepw = false) :
    (svr_auth_pam w).password = some (List.replicate w.req.password.length 0) := by
  have hb : ∀ p : List Nat, p.length = w.req.password.length →
      m_burn p w.req.password.length = List.replicate w.req.password.length 0 :=
    fun p hp => m_burn_of_length p _ hp
  rw [svr_auth_pam_exec]
  simp only [exec_a183, exec_a196, exec_a203, exec_a212, exec_a218, exec_a225,
    exec_a233, exec_a238, exec_a249, exec_a263, exec_a269, exec_a272, exec_a276,
    exec_a282, exec_a284, exec_a291, exec_fail]
  simp only [apply_ite World.password, upd_password, Option.map_some', Option.map_map,
    hch, Bool.false_eq_true, if_false, Function.comp_def]
  simp [hb, convPasswd_length]

theorem outcome_success (w : World) (ho : outcome w = .Success) :
    w.req.changepw = false ∧ rcAt w 0 = PAM_SUCCESS ∧ rcAt w 1 = PAM_SUCCESS
    ∧ rcAt w 2 = PAM_SUCCESS ∧ rcAt w (authAt w) = PAM_SUCCESS
    ∧ acctRc w = PAM_SUCCESS ∧ rcAt w (credAt w) = PAM_SUCCESS
    ∧ rcAt w (credAt w + 1) = PAM_SUCCESS := by
  unfold outcome at ho
  split_ifs at ho
  all_goals simp_all

/-! ## The verification pipeline: claims C11 to C20 -/

/-- C11: for every request without "change password" for which transaction
start, both attribute bindings, authenticate, account check, credential
establishment and session open all report success, `svr_auth_pam` returns
having sent exactly one success message and no failure message; the PAM calls
it issued are those of the pipeline, without any cleanup call (the handle is
not ended and stays in `ses.authstate.pam`); both flags are set; and every
byte of the password buffer is zero. -/
theorem success_run (w : World) (ho : outcome w = .Success) :
    (run authFuel ⟨.a183, [], w⟩).pc = .halt
    ∧ peerMsgs (newEvents w (svr_auth_pam w)) = [.send_msg_userauth_success]
    ∧ pamOps (newEvents w (svr_auth_pam w)) = pipelineOps w
    ∧ PamOp.pam_end ∉ pamOps (newEvents w (svr_auth_pam w))
    ∧ (svr_auth_pam w).pam = pamhAt w 0
    ∧ (svr_auth_pam w).pam_credset = true
    ∧ (svr_auth_pam w).pam_sesopen = true
    ∧ (svr_auth_pam w).password = some (List.replicate w.req.password.length 0) := by
  obtain ⟨hch, h0, h1, h2, h3, h4, h5, h6⟩ := outcome_success w ho
  have hops : pamOps (newEvents w (svr_auth_pam w)) = pipelineOps w
      ∧ (svr_auth_pam w).pam = pamhAt w 0
      ∧ (svr_auth_pam w).pam_credset = true
      ∧ (svr_auth_pam w).pam_sesopen = true := by
    rw [svr_auth_pam_exec]
    by_cases hd : w.have_pam_fail_delay = true <;> cases hq : newTokReqd w <;>
      simp_all [authAt, acctRc, credAt, newTokReqd, pipelineOps,
        exec_a183, exec_a196, exec_a203, exec_a212, exec_a218, exec_a225,
        exec_a233, exec_a238, exec_a249, exec_a263, exec_a269, exec_a272, exec_a276,
        exec_a282, exec_a284, exec_a291, upd_newEvents, upd_pam, upd_credset, upd_sesopen,
        pamOps, pamOps_append, pamOps_convTrace, successLog]
  refine ⟨svr_auth_pam_halts w, ?_, hops.1, ?_, hops.2.1, hops.2.2.1, hops.2.2.2,
    run_password w hch⟩
  · rw [run_peerMsgs, if_pos ho]
  · rw [hops.1]
    unfold pipelineOps
    split_ifs <;> simp

/-- Witness for C11: user "alice", password "secret123", one prompt
"Password: " during authenticate, every call succeeds. -/
theorem success_run_witness :
    outcome (scenarioB) = .Success
    ∧ peerMsgs (newEvents (scenarioB)
        (svr_auth_pam (scenarioB))) = [.send_msg_userauth_success]
    ∧ (svr_auth_pam (scenarioB)).password
        = some (List.replicate (scenarioB).req.password.length 0) :=
  ⟨by decide,
   (success_run (scenarioB) (by decide)).2.1,
   (success_run (scenarioB) (by decide)).2.2.2.2.2.2.2⟩

theorem failure_mem_peerMsgs (p i : Int) (es : List Event)
    (h : Event.send_msg_userauth_failure p i ∈ es) :
    Event.send_msg_userauth_failure p i ∈ peerMsgs es := by
  induction es with
  | nil => simp at h
  | cons x xs ih =>
    rcases List.mem_cons.mp h with h1 | h2
    · subst h1
      simp [peerMsgs]
    · have := ih h2
      cases x <;> simp [peerMsgs, this]

theorem outcome_authenticate (w : World) (ho : outcome w = .Failed .Authenticate) :
    w.req.changepw = false ∧ rcAt w 0 = PAM_SUCCESS ∧ rcAt w 1 = PAM_SUCCESS
    ∧ rcAt w 2 = PAM_SUCCESS ∧ rcAt w (authAt w) ≠ PAM_SUCCESS := by
  unfold outcome at ho
  split_ifs at ho
  all_goals simp_all

/-- C12, as stated, fails: in scenario C (`pam_authenticate` fails) the one
failure message sent is `send_msg_userauth_failure(0, 1)`: its `partial`
argument is 0, and no failure message with `partial` set is sent. -/
theorem auth_failure_partial_is_zero :
    outcome scenarioC = .Failed .Authenticate
    ∧ peerMsgs (newEvents scenarioC (svr_auth_pam scenarioC))
        = [.send_msg_userauth_failure 0 1]
    ∧ ¬ ∃ p i, p ≠ 0 ∧ Event.send_msg_userauth_failure p i
        ∈ newEvents scenarioC (svr_auth_pam scenarioC) := by
  have hp : peerMsgs (newEvents scenarioC (svr_auth_pam scenarioC))
      = [.send_msg_userauth_failure 0 1] := by decide
  refine ⟨by decide, hp, ?_⟩
  rintro ⟨p, i, hne, hm⟩
  have := failure_mem_peerMsgs p i _ hm
  rw [hp] at this
  simp at this
  exact hne this.1

/-- C12, amended: for every run, started with both flags clear, in which setup
succeeds and `pam_authenticate` reports a non-success result, exactly one
failure message is sent and it is `send_msg_userauth_failure(0, 1)`
(`partial` = 0, as on the "change password" path); the warning naming the user
and the peer address is logged; no account check, credential establishment or
session open call is issued (only `pam_end` follows, when the handle is not
NULL); and `svr_auth_pam_cleanup` is entered, after 9 steps, with both flags
clear. -/
theorem auth_failure_run (w : World) (ho : outcome w = .Failed .Authenticate)
    (hc : w.pam_credset = false) (hs : w.pam_sesopen = false) :
    (run authFuel ⟨.a183, [], w⟩).pc = .halt
    ∧ peerMsgs (newEvents w (svr_auth_pam w)) = [.send_msg_userauth_failure 0 1]
    ∧ badAttemptLog w ∈ newEvents w (svr_auth_pam w)
    ∧ pamOps (newEvents w (svr_auth_pam w))
        = (pipelineOps w).take (authAt w + 1)
          ++ (if pamhAt w 0 = 0 then [] else [PamOp.pam_end])
    ∧ PamOp.pam_acct_mgmt ∉ pamOps (newEvents w (svr_auth_pam w))
    ∧ PamOp.pam_setcred PAM_ESTABLISH_CRED ∉ pamOps (newEvents w (svr_auth_pam w))
    ∧ PamOp.pam_open_session ∉ pamOps (newEvents w (svr_auth_pam w))
    ∧ (run 9 ⟨.a183, [], w⟩).pc = .c300
    ∧ (run 9 ⟨.a183, [], w⟩).w.pam_credset = false
    ∧ (run 9 ⟨.a183, [], w⟩).w.pam_sesopen = false := by
  obtain ⟨hch, h0, h1, h2, h3⟩ := outcome_authenticate w ho
  have hops : pamOps (newEvents w (svr_auth_pam w))
      = (pipelineOps w).take (authAt w + 1)
        ++ (if pamhAt w 0 = 0 then [] else [PamOp.pam_end]) := by
    rw [run_pamOps w hch hc hs]
    simp [ho, failPos, h0, h1, h2, h3]
  have hlog : badAttemptLog w ∈ newEvents w (svr_auth_pam w) := by
    rw [svr_auth_pam_exec]
    by_cases hd : w.have_pam_fail_delay = true <;>
      simp_all [authAt, exec_a183, exec_a196, exec_a203, exec_a212, exec_a218, exec_a225,
        exec_a233, exec_a238, exec_fail, upd_newEvents]
  have hrun : (run 9 ⟨.a183, [], w⟩).pc = .c300
      ∧ (run 9 ⟨.a183, [], w⟩).w.pam_credset = false
      ∧ (run 9 ⟨.a183, [], w⟩).w.pam_sesopen = false := by
    simp only [rcAt, Nat.add_zero] at h0 h1 h2 h3
    by_cases hd : w.have_pam_fail_delay = true <;>
      simp_all [authAt, run_succ, run_zero, step_a183, step_a196, step_a203, step_a212,
        step_a218, step_a225, step_a233, step_a238, step_a288, pamCall, pamModuleCall_fst,
        pamModuleCall_flags, World.emit, logFailed, logBadAttempt, Nat.add_assoc]
  refine ⟨svr_auth_pam_halts w, ?_, hlog, hops, ?_, ?_, ?_, hrun⟩
  · rw [run_peerMsgs]
    simp [ho]
  all_goals
    rw [hops]
    by_cases hd : w.have_pam_fail_delay = true <;> by_cases hp : pamhAt w 0 = 0 <;>
      simp [pipelineOps, authAt, hd, hp]

/-- Witness for C12 amended: scenario C. -/
theorem auth_failure_run_witness :
    outcome scenarioC = .Failed .Authenticate
    ∧ scenarioC.pam_credset = false ∧ scenarioC.pam_sesopen = false
    ∧ peerMsgs (newEvents scenarioC (svr_auth_pam scenarioC))
        = [.send_msg_userauth_failure 0 1]
    ∧ badAttemptLog scenarioC ∈ newEvents scenarioC (svr_auth_pam scenarioC) :=
  ⟨by decide, rfl, rfl,
   (auth_failure_run scenarioC (by decide) rfl rfl).2.1,
   (auth_failure_run scenarioC (by decide) rfl rfl).2.2.1⟩

/-- C13: for every run that reaches the account check (the request has no
"change password", setup and `pam_authenticate` succeed): the stage passes,
that is `pam_setcred(.., PAM_ESTABLISH_CRED)` is called next, exactly when
`pam_acct_mgmt` returns success, or returns `PAM_NEW_AUTHTOK_REQD` and
`pam_chauthtok` returns success; `pam_chauthtok` is called exactly when
`pam_acct_mgmt` returns `PAM_NEW_AUTHTOK_REQD`.  In every other case the
outcome is `Failed AccountMgmt`: one failure message is sent, the warning with
the result code and the warning naming the user and the peer address are
logged, and neither credential establishment nor session open is called. -/
theorem account_check_run (w : World) (hch : w.req.changepw = false)
    (h0 : rcAt w 0 = PAM_SUCCESS) (h1 : rcAt w 1 = PAM_SUCCESS)
    (h2 : rcAt w 2 = PAM_SUCCESS) (h3 : rcAt w (authAt w) = PAM_SUCCESS) :
    (PamOp.pam_setcred PAM_ESTABLISH_CRED ∈ pamOps (newEvents w (svr_auth_pam w))
      ↔ (rcAt w (authAt w + 1) = PAM_SUCCESS
        ∨ (rcAt w (authAt w + 1) = PAM_NEW_AUTHTOK_REQD
          ∧ rcAt w (authAt w + 2) = PAM_SUCCESS)))
    ∧ (PamOp.pam_chauthtok PAM_CHANGE_EXPIRED_AUTHTOK
        ∈ pamOps (newEvents w (svr_auth_pam w))
      ↔ rcAt w (authAt w + 1) = PAM_NEW_AUTHTOK_REQD)
    ∧ (¬ (rcAt w (authAt w + 1) = PAM_SUCCESS
          ∨ (rcAt w (authAt w + 1) = PAM_NEW_AUTHTOK_REQD
            ∧ rcAt w (authAt w + 2) = PAM_SUCCESS)) →
        outcome w = .Failed .AccountMgmt
        ∧ peerMsgs (newEvents w (svr_auth_pam w)) = [.send_msg_userauth_failure 0 1]
        ∧ Event.dropbear_log LOG_WARNING "pam_acct_mgmt() failed, rc=%d, %s"
            [.int (acctRc w), .pam_strerror (acctRc w)] ∈ newEvents w (svr_auth_pam w)
        ∧ badAttemptLog w ∈ newEvents w (svr_auth_pam w)
        ∧ PamOp.pam_setcred PAM_ESTABLISH_CRED ∉ pamOps (newEvents w (svr_auth_pam w))
        ∧ PamOp.pam_open_session ∉ pamOps (newEvents w (svr_auth_pam w))) := by
  have hpeer := run_peerMsgs w
  generalize peerMsgs (newEvents w (svr_auth_pam w)) = pm at hpeer ⊢
  rw [svr_auth_pam_exec]
  rcases outcome_cases w with
    ⟨hch, ho⟩ | ⟨hch, h0, ho⟩ | ⟨hch, h0, h1, ho⟩ | ⟨hch, h0, h1, h2, ho⟩
    | ⟨hch, h0, h1, h2, ⟨h3, ho⟩ | ⟨h3,
        ⟨hn, ⟨h4, ho⟩ | ⟨h4, ⟨h5, ho⟩ | ⟨h5, ⟨h6, ho⟩ | ⟨h6, ho⟩⟩⟩⟩
        | ⟨hn, ⟨h4, ho⟩ | ⟨h4, ⟨h5, ho⟩ | ⟨h5, ⟨h6, ho⟩ | ⟨h6, ho⟩⟩⟩⟩⟩⟩
  all_goals
    by_cases hd : w.have_pam_fail_delay = true <;>
      simp_all [authAt, newTokReqd, acctRc, badAttemptLog, PAM_NEW_AUTHTOK_REQD,
        PAM_SUCCESS, PAM_ESTABLISH_CRED, PAM_DELETE_CRED,
        exec_a183, exec_a196, exec_a203, exec_a212, exec_a218, exec_a225,
        exec_a233, exec_a238, exec_a249, exec_a263, exec_a269, exec_a272, exec_a276,
        exec_a282, exec_a284, exec_a291, exec_fail, upd_newEvents,
        pamOps, pamOps_append, pamOps_convTrace, pamOps_cleanupEvents, successLog]

/-- Witness for C13: scenario D (the account check reports
`PAM_NEW_AUTHTOK_REQD`, `pam_chauthtok` fails). -/
theorem account_check_run_witness :
    scenarioD.req.changepw = false
    ∧ rcAt scenarioD 0 = PAM_SUCCESS ∧ rcAt scenarioD 1 = PAM_SUCCESS
    ∧ rcAt scenarioD 2 = PAM_SUCCESS ∧ rcAt scenarioD (authAt scenarioD) = PAM_SUCCESS
    ∧ rcAt scenarioD (authAt scenarioD + 1) = PAM_NEW_AUTHTOK_REQD
    ∧ rcAt scenarioD (authAt scenarioD + 2) ≠ PAM_SUCCESS
    ∧ PamOp.pam_chauthtok PAM_CHANGE_EXPIRED_AUTHTOK
        ∈ pamOps (newEvents scenarioD (svr_auth_pam scenarioD))
    ∧ outcome scenarioD = .Failed .AccountMgmt
    ∧ peerMsgs (newEvents scenarioD (svr_auth_pam scenarioD))
        = [.send_msg_userauth_failure 0 1] :=
  ⟨rfl, by decide, by decide, by decide, by decide, by decide, by decide,
   (account_check_run scenarioD rfl (by decide) (by decide) (by decide) (by decide)).2.1.mpr
     (by decide),
   ((account_check_run scenarioD rfl (by decide) (by decide) (by decide) (by decide)).2.2
     (by decide)).1,
   ((account_check_run scenarioD rfl (by decide) (by decide) (by decide) (by decide)).2.2
     (by decide)).2.1⟩

/-- C14: the code sends no response at all when setup fails.  In the run of
user "alice" in which `pam_start` fails (with 4, `PAM_SYSTEM_ERR`), the run in
which the `PAM_RHOST` binding fails and the run in which the `PAM_TTY` binding
fails, `svr_auth_pam` returns without any `send_msg_userauth_failure` or
`send_msg_userauth_success`; only the local warning is written. -/
theorem setup_failure_sends_nothing :
    (outcome (World.scenario (fun n => if n = 0 then 4 else 0) 0) = .Failed .Setup
      ∧ peerMsgs (newEvents (World.scenario (fun n => if n = 0 then 4 else 0) 0)
          (svr_auth_pam (World.scenario (fun n => if n = 0 then 4 else 0) 0))) = []
      ∧ logsOf (newEvents (World.scenario (fun n => if n = 0 then 4 else 0) 0)
          (svr_auth_pam (World.scenario (fun n => if n = 0 then 4 else 0) 0)))
        = [.dropbear_log LOG_WARNING "pam_start() failed, rc=%d, %s"
            [.int 4, .pam_strerror 4]])
    ∧ (outcome (World.scenario (fun n => if n = 1 then 4 else 0) 7) = .Failed .Setup
      ∧ peerMsgs (newEvents (World.scenario (fun n => if n = 1 then 4 else 0) 7)
          (svr_auth_pam (World.scenario (fun n => if n = 1 then 4 else 0) 7))) = [])
    ∧ (outcome (World.scenario (fun n => if n = 2 then 4 else 0) 7) = .Failed .Setup
      ∧ peerMsgs (newEvents (World.scenario (fun n => if n = 2 then 4 else 0) 7)
          (svr_auth_pam (World.scenario (fun n => if n = 2 then 4 else 0) 7))) = []) := by
  decide

theorem count_m_free_convTrace (cs : List ConvCall) (u p : List Nat) :
    List.count Event.m_free (convTrace cs u p) = 0 :=
  List.count_eq_zero_of_not_mem (m_free_not_mem_convTrace cs u p)

theorem count_m_free_cleanupEvents (h : Nat) (ses cred : Bool) (r0 r1 : Int) :
    List.count Event.m_free (cleanupEvents h ses cred r0 r1) = 0 :=
  List.count_eq_zero_of_not_mem (m_free_not_mem_cleanupEvents h ses cred r0 r1)

/-- The last two events of a run that decoded a password are the wipe and the
release of finalization (lines 291-294), and the release happens once. -/
theorem run_finalization (w : World) (hch : w.req.changepw = false) :
    [Event.m_burn w.req.password.length, Event.m_free] <:+ newEvents w (svr_auth_pam w)
    ∧ List.count Event.m_free (newEvents w (svr_auth_pam w)) = 1 := by
  rw [svr_auth_pam_exec]
  simp only [exec_a183, exec_a196, exec_a203, exec_a212, exec_a218, exec_a225,
    exec_a233, exec_a238, exec_a249, exec_a263, exec_a269, exec_a272, exec_a276,
    exec_a282, exec_a284, exec_a291, exec_fail]
  simp only [apply_ite (newEvents w), upd_newEvents, Nat.zero_add, Nat.reduceAdd,
    ← List.reverse_prefix, apply_ite List.reverse, apply_ite (List.count Event.m_free),
    List.count_append, List.count_cons, List.count_nil,
    count_m_free_convTrace, count_m_free_cleanupEvents]
  rcases outcome_cases w with
    ⟨hch, ho⟩ | ⟨hch, h0, ho⟩ | ⟨hch, h0, h1, ho⟩ | ⟨hch, h0, h1, h2, ho⟩
    | ⟨hch, h0, h1, h2, ⟨h3, ho⟩ | ⟨h3,
        ⟨hn, ⟨h4, ho⟩ | ⟨h4, ⟨h5, ho⟩ | ⟨h5, ⟨h6, ho⟩ | ⟨h6, ho⟩⟩⟩⟩
        | ⟨hn, ⟨h4, ho⟩ | ⟨h4, ⟨h5, ho⟩ | ⟨h5, ⟨h6, ho⟩ | ⟨h6, ho⟩⟩⟩⟩⟩⟩
  all_goals
    by_cases hd : w.have_pam_fail_delay = true <;>
      simp_all [authAt, newTokReqd, badAttemptLog, successLog]

/-- C15, as stated, fails: in scenario B the password prompt is answered, so
the conversation wipes the buffer (line 111), and finalization wipes it again
(line 292): two wipes of 9 bytes, then the release. -/
theorem conversation_and_finalization_both_wipe :
    wipes (newEvents scenarioB (svr_auth_pam scenarioB))
      = [.m_burn 9, .m_burn 9, .m_free] := by
  decide

/-- C15, amended: for every run that decodes a password (request without
"change password"), on every path `svr_auth_pam` returns with finalization as
its last two events, `m_burn(password, passwordlen)` then `m_free(password)`,
whether or not the conversation has already wiped the buffer; the buffer is
released exactly once, and on return every byte of it is zero. -/
theorem finalization_always_wipes (w : World) (hch : w.req.changepw = false) :
    (run authFuel ⟨.a183, [], w⟩).pc = .halt
    ∧ [Event.m_burn w.req.password.length, Event.m_free] <:+ newEvents w (svr_auth_pam w)
    ∧ List.count Event.m_free (newEvents w (svr_auth_pam w)) = 1
    ∧ (svr_auth_pam w).password = some (List.replicate w.req.password.length 0) :=
  ⟨svr_auth_pam_halts w, (run_finalization w hch).1, (run_finalization w hch).2,
    run_password w hch⟩

/-- Witness for C15 amended: scenario C, a failure path on which the password
prompt was answered before `pam_authenticate` failed. -/
theorem finalization_always_wipes_witness :
    scenarioC.req.changepw = false
    ∧ [Event.m_burn 9, Event.m_free] <:+ newEvents scenarioC (svr_auth_pam scenarioC)
    ∧ (svr_auth_pam scenarioC).password = some (List.replicate 9 0) :=
  ⟨rfl, (finalization_always_wipes scenarioC rfl).2.1,
    (finalization_always_wipes scenarioC rfl).2.2.2⟩

theorem convTrace_convLogs (cs : List ConvCall) (u p : List Nat) :
    logsOf (convTrace cs u p) = convLogs cs u :=
  convTrace_logs cs u p u []

section
variable (w : World) (pw : List Nat)

theorem withPassword_rcAt (k : Nat) : rcAt (w.withPassword pw) k = rcAt w k := rfl
theorem withPassword_pamhAt (k : Nat) : pamhAt (w.withPassword pw) k = pamhAt w k := rfl
theorem withPassword_convAt (k : Nat) : convAt (w.withPassword pw) k = convAt w k := rfl
theorem withPassword_changepw : (w.withPassword pw).req.changepw = w.req.changepw := rfl
theorem withPassword_username : (w.withPassword pw).username = w.username := rfl
theorem withPassword_addrstring : (w.withPassword pw).addrstring = w.addrstring := rfl
theorem withPassword_delay :
    (w.withPassword pw).have_pam_fail_delay = w.have_pam_fail_delay := rfl
theorem withPassword_pam : (w.withPassword pw).pam = w.pam := rfl
theorem withPassword_credset : (w.withPassword pw).pam_credset = w.pam_credset := rfl
theorem withPassword_sesopen : (w.withPassword pw).pam_sesopen = w.pam_sesopen := rfl

end

/-- The log lines of a run do not depend on the password of the request. -/
theorem run_logs_withPassword (w : World) (pw : List Nat) :
    logsOf (newEvents w (svr_auth_pam w))
      = logsOf (newEvents (w.withPassword pw) (svr_auth_pam (w.withPassword pw))) := by
  rw [svr_auth_pam_exec, svr_auth_pam_exec]
  simp only [exec_a183, exec_a196, exec_a203, exec_a212, exec_a218, exec_a225,
    exec_a233, exec_a238, exec_a249, exec_a263, exec_a269, exec_a272, exec_a276,
    exec_a282, exec_a284, exec_a291, exec_fail]
  simp only [apply_ite (newEvents w), apply_ite (newEvents (w.withPassword pw)),
    apply_ite logsOf, upd_newEvents, logsOf_append, convTrace_convLogs,
    withPassword_rcAt, withPassword_pamhAt, withPassword_convAt, withPassword_changepw,
    withPassword_username, withPassword_addrstring, withPassword_delay, withPassword_pam,
    withPassword_credset, withPassword_sesopen, badAttemptLog, successLog, logsOf,
    Nat.zero_add, Nat.reduceAdd, List.nil_append, List.append_nil, List.cons_append]

/-- C16: the password is never logged.  Two calls of `pamConvFunc` on the same
prompt and username that differ only in the password produce the same log
entries (priority, format and arguments), and so do two runs of `svr_auth_pam`
from states that differ only in the password of the request (same username,
peer address, prompts and module result codes). -/
theorem password_never_logged (w : World) (pw : List Nat)
    (n : Int) (m : pam_message) (u p p2 : List Nat) :
    logsOf (pamConvFunc n m { user := u, passwd := p }).events
      = logsOf (pamConvFunc n m { user := u, passwd := p2 }).events
    ∧ logsOf (newEvents w (svr_auth_pam w))
      = logsOf (newEvents (w.withPassword pw) (svr_auth_pam (w.withPassword pw))) :=
  ⟨pamConvFunc_logs n m _ _, run_logs_withPassword w pw⟩

theorem count_successLog_convTrace (w : World) (cs : List ConvCall) (u p : List Nat) :
    List.count (successLog w) (convTrace cs u p) = 0 :=
  List.count_eq_zero_of_not_mem (successLog_not_mem_convTrace w cs u p)

theorem count_successLog_cleanupEvents (w : World) (h : Nat) (ses cred : Bool)
    (r0 r1 : Int) :
    List.count (successLog w) (cleanupEvents h ses cred r0 r1) = 0 :=
  List.count_eq_zero_of_not_mem (successLog_not_mem_cleanupEvents w h ses cred r0 r1)

/-- The number of audit-success lines of a run: one exactly when credential
establishment succeeded, that is when the outcome is `Success` or
`Failed OpenSession`. -/
theorem run_successLog (w : World) :
    List.count (successLog w) (newEvents w (svr_auth_pam w))
      = if outcome w = .Success ∨ outcome w = .Failed .OpenSession then 1 else 0 := by
  rw [svr_auth_pam_exec]
  simp only [exec_a183, exec_a196, exec_a203, exec_a212, exec_a218, exec_a225,
    exec_a233, exec_a238, exec_a249, exec_a263, exec_a269, exec_a272, exec_a276,
    exec_a282, exec_a284, exec_a291, exec_fail]
  simp only [apply_ite (newEvents w), upd_newEvents, Nat.zero_add, Nat.reduceAdd,
    apply_ite (List.count (successLog w)),
    List.count_append, List.count_cons, List.count_nil, count_successLog_convTrace, count_successLog_cleanupEvents]
  rcases outcome_cases w with
    ⟨hch, ho⟩ | ⟨hch, h0, ho⟩ | ⟨hch, h0, h1, ho⟩ | ⟨hch, h0, h1, h2, ho⟩
    | ⟨hch, h0, h1, h2, ⟨h3, ho⟩ | ⟨h3,
        ⟨hn, ⟨h4, ho⟩ | ⟨h4, ⟨h5, ho⟩ | ⟨h5, ⟨h6, ho⟩ | ⟨h6, ho⟩⟩⟩⟩
        | ⟨hn, ⟨h4, ho⟩ | ⟨h4, ⟨h5, ho⟩ | ⟨h5, ⟨h6, ho⟩ | ⟨h6, ho⟩⟩⟩⟩⟩⟩
  all_goals
    by_cases hd : w.have_pam_fail_delay = true <;>
      simp_all [authAt, newTokReqd, badAttemptLog, successLog, List.count_cons,
        LOG_NOTICE, LOG_WARNING]

/-- From line 272 on: the audit-success line is the next event and the call of
`pam_open_session` follows it immediately. -/
theorem after_a272 (w : World) (h : Nat) (c s : Bool) (pw : Option (List Nat)) (len k : Nat)
    (tr : List Event) :
    ∃ post, newEvents w (Config.final ⟨.a272, [], w.upd h c s pw len k tr⟩)
      = tr ++ successLog w :: Event.pam .pam_open_session h :: post := by
  rw [exec_a272, exec_a276]
  split_ifs
  · rw [exec_fail, upd_newEvents]
    simp only [List.append_assoc, List.cons_append, List.nil_append]
    exact ⟨_, rfl⟩
  · rw [exec_a282, exec_a284, exec_a291, upd_newEvents]
    simp only [List.append_assoc, List.cons_append, List.nil_append]
    exact ⟨_, rfl⟩

/-- In a run whose outcome is `Success` or `Failed OpenSession`, the
audit-success line comes after the call of `pam_setcred(.., PAM_ESTABLISH_CRED)`
and immediately before the first call of `pam_open_session`. -/
theorem run_successLog_order (w : World)
    (ho : outcome w = .Success ∨ outcome w = .Failed .OpenSession) :
    ∃ pre post, newEvents w (svr_auth_pam w)
        = pre ++ successLog w :: Event.pam .pam_open_session (pamhAt w 0) :: post
      ∧ PamOp.pam_setcred PAM_ESTABLISH_CRED ∈ pamOps pre
      ∧ PamOp.pam_open_session ∉ pamOps pre := by
  rw [svr_auth_pam_exec]
  simp only [exec_a183, exec_a196, exec_a203, exec_a212, exec_a218, exec_a225,
    exec_a233, exec_a238, exec_a249, exec_a263, exec_a269, exec_fail]
  simp only [Nat.zero_add, Nat.reduceAdd]
  rcases outcome_cases w with
    ⟨hch, ho⟩ | ⟨hch, h0, ho⟩ | ⟨hch, h0, h1, ho⟩ | ⟨hch, h0, h1, h2, ho⟩
    | ⟨hch, h0, h1, h2, ⟨h3, ho⟩ | ⟨h3,
        ⟨hn, ⟨h4, ho⟩ | ⟨h4, ⟨h5, ho⟩ | ⟨h5, ⟨h6, ho⟩ | ⟨h6, ho⟩⟩⟩⟩
        | ⟨hn, ⟨h4, ho⟩ | ⟨h4, ⟨h5, ho⟩ | ⟨h5, ⟨h6, ho⟩ | ⟨h6, ho⟩⟩⟩⟩⟩⟩
  all_goals
    by_cases hd : w.have_pam_fail_delay = true <;>
      simp_all [authAt, newTokReqd]
  all_goals
    refine ⟨_, after_a272 w _ _ _ _ _ _ _, ?_⟩
    simp [pamOps, pamOps_append, pamOps_convTrace]

theorem count_openSession_cleanupEvents (h : Nat) (ses cred : Bool) (r0 r1 : Int) :
    List.count PamOp.pam_open_session (pamOps (cleanupEvents h ses cred r0 r1)) = 0 := by
  rw [pamOps_cleanupEvents]
  by_cases h0 : h = 0 <;> cases ses <;> cases cred <;> simp [h0, List.count_cons]

/-- The number of calls of `pam_open_session` in a run: one exactly when
credential establishment succeeded. -/
theorem run_openSession_count (w : World) :
    List.count PamOp.pam_open_session (pamOps (newEvents w (svr_auth_pam w)))
      = if outcome w = .Success ∨ outcome w = .Failed .OpenSession then 1 else 0 := by
  rw [svr_auth_pam_exec]
  simp only [exec_a183, exec_a196, exec_a203, exec_a212, exec_a218, exec_a225,
    exec_a233, exec_a238, exec_a249, exec_a263, exec_a269, exec_a272, exec_a276,
    exec_a282, exec_a284, exec_a291, exec_fail]
  simp only [apply_ite (newEvents w), apply_ite pamOps, upd_newEvents,
    Nat.zero_add, Nat.reduceAdd, pamOps_append, pamOps_convTrace,
    pamOps, badAttemptLog, successLog, List.nil_append, List.append_nil, List.cons_append,
    List.append_assoc]
  simp only [apply_ite (List.count PamOp.pam_open_session), List.count_append,
    count_openSession_cleanupEvents]
  rcases outcome_cases w with
    ⟨hch, ho⟩ | ⟨hch, h0, ho⟩ | ⟨hch, h0, h1, ho⟩ | ⟨hch, h0, h1, h2, ho⟩
    | ⟨hch, h0, h1, h2, ⟨h3, ho⟩ | ⟨h3,
        ⟨hn, ⟨h4, ho⟩ | ⟨h4, ⟨h5, ho⟩ | ⟨h5, ⟨h6, ho⟩ | ⟨h6, ho⟩⟩⟩⟩
        | ⟨hn, ⟨h4, ho⟩ | ⟨h4, ⟨h5, ho⟩ | ⟨h5, ⟨h6, ho⟩ | ⟨h6, ho⟩⟩⟩⟩⟩⟩
  all_goals
    by_cases hd : w.have_pam_fail_delay = true <;>
      simp_all [authAt, newTokReqd, List.count_cons, List.count_append,
        count_openSession_cleanupEvents]

/-- C17, as stated, fails: when `pam_open_session` fails (here with 14) the
audit-success line has already been logged (line 272 precedes line 276), and
the run then sends a failure message and no success message. -/
theorem success_logged_then_denied :
    outcome scenarioOpenFails = .Failed .OpenSession
    ∧ successLog scenarioOpenFails
        ∈ newEvents scenarioOpenFails (svr_auth_pam scenarioOpenFails)
    ∧ peerMsgs (newEvents scenarioOpenFails (svr_auth_pam scenarioOpenFails))
        = [.send_msg_userauth_failure 0 1] := by
  decide

/-- C17, amended: for every run of `svr_auth_pam`, the audit-success line
(notice level, with username and peer address) is logged, once, if and only if
credential establishment has reported success, that is when the outcome is
`Success` or `Failed OpenSession`: it is written before `pam_open_session` is
called (in those runs `pam_open_session` is called once, the line comes after
the call of `pam_setcred(.., PAM_ESTABLISH_CRED)` and is the event immediately
before the call of `pam_open_session`).  With outcome `Success` the success
message is the one response sent; with outcome `Failed OpenSession` the line is
in the log and the one response sent is a failure message; a run that fails at
an earlier stage does not log the line. -/
theorem success_log_iff_credentials_established (w : World) :
    (run authFuel ⟨.a183, [], w⟩).pc = .halt
    ∧ List.count (successLog w) (newEvents w (svr_auth_pam w))
        = (if outcome w = .Success ∨ outcome w = .Failed .OpenSession then 1 else 0)
    ∧ (successLog w ∈ newEvents w (svr_auth_pam w)
        ↔ outcome w = .Success ∨ outcome w = .Failed .OpenSession)
    ∧ List.count PamOp.pam_open_session (pamOps (newEvents w (svr_auth_pam w)))
        = (if outcome w = .Success ∨ outcome w = .Failed .OpenSession then 1 else 0)
    ∧ (outcome w = .Success ∨ outcome w = .Failed .OpenSession →
        ∃ pre post, newEvents w (svr_auth_pam w)
            = pre ++ successLog w :: Event.pam .pam_open_session (pamhAt w 0) :: post
          ∧ PamOp.pam_setcred PAM_ESTABLISH_CRED ∈ pamOps pre
          ∧ PamOp.pam_open_session ∉ pamOps pre)
    ∧ (outcome w = .Success →
        peerMsgs (newEvents w (svr_auth_pam w)) = [.send_msg_userauth_success])
    ∧ (outcome w = .Failed .OpenSession →
        peerMsgs (newEvents w (svr_auth_pam w)) = [.send_msg_userauth_failure 0 1]) := by
  refine ⟨svr_auth_pam_halts w, run_successLog w, ?_, run_openSession_count w,
    run_successLog_order w, ?_, ?_⟩
  · rw [← List.count_pos_iff, run_successLog]
    split_ifs with h <;> simp [h]
  · intro ho
    rw [run_peerMsgs, if_pos ho]
  · intro ho
    rw [run_peerMsgs]
    simp [ho]

/-- C18: for every run, started with both flags clear, of a request without
"change password" in which `pam_start` succeeds and stores a handle that is not
NULL, and whose outcome is not `Success`: the call at position `failPos` of
the pipeline is the one that reported failure, the PAM calls issued are the
pipeline up to and including that call (none of a later stage) followed by the
rollback, which is `pam_setcred(.., PAM_DELETE_CRED)` exactly when the failure
is at session open (credentials had been established), then `pam_end`, once,
whatever the delete returned; `pam_close_session` is never called. -/
theorem rollback_after_failure (w : World) (hch : w.req.changepw = false)
    (h0 : rcAt w 0 = PAM_SUCCESS) (hh : pamhAt w 0 ≠ 0)
    (hc : w.pam_credset = false) (hs : w.pam_sesopen = false)
    (ho : outcome w ≠ .Success) :
    (run authFuel ⟨.a183, [], w⟩).pc = .halt
    ∧ 0 < failPos w ∧ failPos w < (pipelineOps w).length
    ∧ (if outcome w = .Failed .AccountMgmt then acctRc w else rcAt w (failPos w))
        ≠ PAM_SUCCESS
    ∧ pamOps (newEvents w (svr_auth_pam w))
        = (pipelineOps w).take (failPos w + 1)
          ++ (if outcome w = .Failed .OpenSession
              then [PamOp.pam_setcred PAM_DELETE_CRED] else [])
          ++ [PamOp.pam_end]
    ∧ (outcome w = .Failed .OpenSession
        ↔ PamOp.pam_setcred PAM_ESTABLISH_CRED ∈ (pipelineOps w).take (failPos w))
    ∧ List.count PamOp.pam_end (pamOps (newEvents w (svr_auth_pam w))) = 1
    ∧ PamOp.pam_close_session PAM_SILENT ∉ pamOps (newEvents w (svr_auth_pam w)) := by
  have hops := run_pamOps w hch hc hs
  rw [if_neg ho, if_neg hh] at hops
  rw [hops]
  refine ⟨svr_auth_pam_halts w, ?_⟩
  rcases outcome_cases w with
    ⟨hch, ho⟩ | ⟨hch, h0, ho⟩ | ⟨hch, h0, h1, ho⟩ | ⟨hch, h0, h1, h2, ho⟩
    | ⟨hch, h0, h1, h2, ⟨h3, ho⟩ | ⟨h3,
        ⟨hn, ⟨h4, ho⟩ | ⟨h4, ⟨h5, ho⟩ | ⟨h5, ⟨h6, ho⟩ | ⟨h6, ho⟩⟩⟩⟩
        | ⟨hn, ⟨h4, ho⟩ | ⟨h4, ⟨h5, ho⟩ | ⟨h5, ⟨h6, ho⟩ | ⟨h6, ho⟩⟩⟩⟩⟩⟩
  all_goals
    by_cases hd : w.have_pam_fail_delay = true <;>
      simp_all [authAt, failPos, pipelineOps, acctRc, credAt, newTokReqd,
        List.count_cons, PAM_ESTABLISH_CRED, PAM_DELETE_CRED]

/-- Witness for C18: `pam_open_session` fails after credentials have been
established; the rollback is the delete, then `pam_end`. -/
theorem rollback_after_failure_witness :
    scenarioOpenFails.req.changepw = false
    ∧ rcAt scenarioOpenFails 0 = PAM_SUCCESS ∧ pamhAt scenarioOpenFails 0 ≠ 0
    ∧ scenarioOpenFails.pam_credset = false ∧ scenarioOpenFails.pam_sesopen = false
    ∧ outcome scenarioOpenFails ≠ .Success
    ∧ pamOps (newEvents scenarioOpenFails (svr_auth_pam scenarioOpenFails))
        = (pipelineOps scenarioOpenFails).take (failPos scenarioOpenFails + 1)
          ++ (if outcome scenarioOpenFails = .Failed .OpenSession
              then [PamOp.pam_setcred PAM_DELETE_CRED] else [])
          ++ [PamOp.pam_end] :=
  ⟨rfl, by decide, by decide, rfl, rfl, by decide,
   (rollback_after_failure scenarioOpenFails rfl (by decide) (by decide) rfl rfl
     (by decide)).2.2.2.2.1⟩

/-- C19: on return from `svr_auth_pam`, started with both flags clear, for
every sequence of module result codes (a successful `pam_start` storing a handle
that is not NULL): `pam_credset` and `pam_sesopen` are both set when the outcome
is `Success`, and both clear when the attempt failed at any stage, the failure
at session open after credentials had been established included. -/
theorem flags_mirror_outcome (w : World)
    (hc : w.pam_credset = false) (hs : w.pam_sesopen = false)
    (hh : rcAt w 0 = PAM_SUCCESS → pamhAt w 0 ≠ 0) :
    (run authFuel ⟨.a183, [], w⟩).pc = .halt
    ∧ (outcome w = .Success →
        (svr_auth_pam w).pam_credset = true ∧ (svr_auth_pam w).pam_sesopen = true)
    ∧ (∀ st, outcome w = .Failed st →
        (svr_auth_pam w).pam_credset = false ∧ (svr_auth_pam w).pam_sesopen = false) := by
  obtain ⟨h1, h2⟩ := run_flags w hc hs hh
  refine ⟨svr_auth_pam_halts w, ?_, ?_⟩
  · intro ho
    rw [h1, h2]
    simp [ho]
  · intro st ho
    rw [h1, h2]
    simp [ho]

/-- Witness for C19: the run in which `pam_open_session` fails after
credentials had been established returns with both flags clear. -/
theorem flags_mirror_outcome_witness :
    scenarioOpenFails.pam_credset = false ∧ scenarioOpenFails.pam_sesopen = false
    ∧ (rcAt scenarioOpenFails 0 = PAM_SUCCESS → pamhAt scenarioOpenFails 0 ≠ 0)
    ∧ outcome scenarioOpenFails = .Failed .OpenSession
    ∧ (svr_auth_pam scenarioOpenFails).pam_credset = false
    ∧ (svr_auth_pam scenarioOpenFails).pam_sesopen = false :=
  ⟨rfl, rfl, by decide, by decide,
   (flags_mirror_outcome scenarioOpenFails rfl rfl (by decide)).2.2 .OpenSession (by decide)⟩

/-- C20: the warning for a failed `PAM_TTY` binding does not carry the result
code of the call.  When `pam_set_item(.., PAM_TTY, "ssh")` returns 5, line 225
assigns to `rc` the value of the comparison `!= PAM_SUCCESS`, so the warning
logs `rc=1`; the same failure of the `PAM_RHOST` binding logs `rc=5`. -/
theorem tty_failure_logs_one :
    logsOf (newEvents (World.scenario (fun n => if n = 2 then 5 else 0) 7)
        (svr_auth_pam (World.scenario (fun n => if n = 2 then 5 else 0) 7)))
      = [.dropbear_log LOG_WARNING "pam_set_item() failed, rc=%d, %s"
          [.int 1, .pam_strerror 1]]
    ∧ logsOf (newEvents (World.scenario (fun n => if n = 1 then 5 else 0) 7)
        (svr_auth_pam (World.scenario (fun n => if n = 1 then 5 else 0) 7)))
      = [.dropbear_log LOG_WARNING "pam_set_item(PAM_RHOST) failed, rc=%d, %s"
          [.int 5, .pam_strerror 5]] := by
  decide

end Dropbear
